import Mathlib

/-!
# Verification of the physics / collision core of `SevenDropsTitle.tsx`

This file gives a shallow embedding, in Lean 4, of the per-frame physics and
collision-resolution loop of the `DraggableCharacter` component
(`src/components/SevenDropsTitle.tsx`, `physicsStep` and its helpers), and
proves or refutes the testable properties stated in the specification.

Embedding conventions:
* JavaScript numbers are modelled as exact rationals (`ℚ`); the spec accepts
  results "within floating-point tolerance", so the rational semantics is the
  intended idealisation.
* The character's bounding box (`getBoundingClientRect`) is modelled as the
  axis-aligned box at the body's current integrated position with the current
  rendered size, as §4.2 step 1 of the spec prescribes ("recompute the body's
  current bounding box"); the box is captured once per frame, before the
  obstacle loop, exactly as in the source (line 641).
* DOM queries are replaced by an explicit per-frame `Env`: viewport size,
  character size, and the live obstacle list (rectangle, optional menu tag,
  letter classification, DIV-ness, and vertical transform offset).
* Side effects towards the caller (sounds, button highlight, shake classes)
  are modelled as an emitted list of `Notif` values, in source order.
* The `requestAnimationFrame` bookkeeping is modelled by the `running` flag of
  `SchedState`, and the pointer/keyboard handlers by `applyEvent`.
-/

namespace SevenDrops

/-- An axis-aligned rectangle, as returned by `getBoundingClientRect`. -/
structure Rect where
  left : ℚ
  right : ℚ
  top : ℚ
  bottom : ℚ

/-- One `.obstacle` element as sampled this frame: its rectangle, the optional
`data-menu-item` tag, whether its text content is a single character (letter
classification), whether its tag name is `DIV`, and the vertical offset read
from its CSS transform (`m42`, used only for letters). -/
structure Obstacle where
  rect : Rect
  menuItem : Option String
  isLetter : Bool
  isDiv : Bool
  translateY : ℚ

/-- The external inputs sampled each frame: viewport size (`window.innerWidth`
/ `window.innerHeight`), the character's rendered size, and the obstacle
list (`document.querySelectorAll(".obstacle")`, minus the character itself). -/
structure Env where
  innerWidth : ℚ
  innerHeight : ℚ
  charWidth : ℚ
  charHeight : ℚ
  obstacles : List Obstacle

/-- The mutable physics state: `posRef`, `velocityRef`, `draggingRef` and the
module-level `lastCollidedButton` ref. -/
structure Body where
  x : ℚ
  y : ℚ
  vx : ℚ
  vy : ℚ
  dragging : Bool
  lastCollidedButton : Option String

/-- Notifications surfaced to the caller during a step, in emission order:
`SOUNDS.land.play()`, button enter (hover sound / `onButtonActivate`), button
exit (effect removal), and the shake/glow effect on a decorative piece. -/
inductive Notif where
  | landed
  | buttonEnter (tag : String)
  | buttonExit (tag : String)
  | pieceShaken
deriving DecidableEq

/-- Per-class material parameters (source: `PHYSICS_PARAMS` entries). -/
structure MaterialParams where
  bounceFactor : ℚ
  friction : ℚ
  landingThreshold : ℚ

/-- The two rows of the `PHYSICS_PARAMS` table. -/
structure PhysicsParamsTable where
  ground : MaterialParams
  obstacle : MaterialParams

/-- Source: `PHYSICS_PARAMS = { ground: { bounceFactor: 0.7, friction: 0.95,
landingThreshold: 150 }, obstacle: { bounceFactor: 0.7, friction: 0.98,
landingThreshold: 200 } }`. -/
def PHYSICS_PARAMS : PhysicsParamsTable :=
  ⟨⟨0.7, 0.95, 150⟩, ⟨0.7, 0.98, 200⟩⟩

/-- Source: `const gravity = 2000;` (px/s²). -/
def gravity : ℚ := 2000

/-- Source: `const bounceFactor = 0.7;` (used for the viewport boundaries). -/
def bounceFactor : ℚ := 0.7

/-- Source: `function isColliding(rect1, rect2)` — AABB overlap test with
strict inequalities, so touching edges count as colliding. -/
def isColliding (rect1 rect2 : Rect) : Bool :=
  !(decide (rect1.right < rect2.left) || decide (rect1.left > rect2.right) ||
    decide (rect1.bottom < rect2.top) || decide (rect1.top > rect2.bottom))

/-- The character's bounding box at the current position. -/
def charRectOf (e : Env) (b : Body) : Rect :=
  ⟨b.x, b.x + e.charWidth, b.y, b.y + e.charHeight⟩

/-- The four sequential viewport-boundary clamps of `physicsStep`
(lines 621–638): clamp the offending coordinate, negate and damp the
corresponding velocity component; the bottom boundary additionally plays the
landing sound when the pre-clamp `|vy|` exceeds 100. -/
def applyBoundary (e : Env) (b : Body) : Body × List Notif :=
  let b := if b.x < 0 then {b with x := 0, vx := -b.vx * bounceFactor} else b
  let b := if b.x + e.charWidth > e.innerWidth then
            {b with x := e.innerWidth - e.charWidth, vx := -b.vx * bounceFactor} else b
  let b := if b.y < 0 then {b with y := 0, vy := -b.vy * bounceFactor} else b
  if b.y + e.charHeight > e.innerHeight then
    ({b with y := e.innerHeight - e.charHeight, vy := -b.vy * bounceFactor},
     if |b.vy| > 100 then [.landed] else [])
  else (b, [])

/-- The loop-carried state of the obstacle `forEach` (lines 646–741):
the body (with the `lastCollidedButton` ref), the `didCollide` flag, and the
notifications emitted so far this frame. -/
structure LoopState where
  body : Body
  didCollide : Bool
  events : List Notif

/-- Axis chosen by the minimum-translation resolution. -/
inductive Axis where
  | top
  | bottom
  | left
  | right

/-- The axis dispatch of the resolution code (lines 693–739): `minOverlap`
is the minimum of the four overlap depths, and the `if / else if` chain tests
`top`, `bottom`, `left`, `right` in that order; `none` is the (unreachable)
fall-through when no branch matches. -/
def resolutionAxis (overlapLeft overlapRight overlapTop overlapBottom : ℚ) : Option Axis :=
  let minOverlap := min (min (min overlapLeft overlapRight) overlapTop) overlapBottom
  if minOverlap = overlapTop then some .top
  else if minOverlap = overlapBottom then some .bottom
  else if minOverlap = overlapLeft then some .left
  else if minOverlap = overlapRight then some .right
  else none

/-- The position/velocity update of one overlapping obstacle
(lines 689–739): compute the four overlap depths from the frame's fixed
character rectangle, pick material parameters by the letter classification,
and resolve along the winning axis. -/
def resolveCollision (e : Env) (charRect : Rect) (obs : Obstacle) (b : Body) : Body :=
  let overlapLeft := charRect.right - obs.rect.left
  let overlapRight := obs.rect.right - charRect.left
  let overlapTop := charRect.bottom - obs.rect.top
  let overlapBottom := obs.rect.bottom - charRect.top
  let minOverlap := min (min (min overlapLeft overlapRight) overlapTop) overlapBottom
  let params := if obs.isLetter then PHYSICS_PARAMS.obstacle else PHYSICS_PARAMS.ground
  let letterOffsetY := if obs.isLetter then obs.translateY else 0
  match resolutionAxis overlapLeft overlapRight overlapTop overlapBottom with
  | some .top =>
      if |b.vy| < params.landingThreshold then
        let b := {b with y := obs.rect.top - e.charHeight + letterOffsetY, vy := 0,
                         vx := b.vx * params.friction}
        if |b.vx| < (if obs.isLetter then 2 else 5) then {b with vx := 0} else b
      else
        {b with y := b.y - minOverlap, vy := -b.vy * params.bounceFactor}
  | some .bottom =>
      {b with y := b.y + minOverlap, vy := -b.vy * params.bounceFactor}
  | some .left =>
      {b with x := b.x - minOverlap,
              vx := if |b.vx| < params.landingThreshold then 0
                    else -b.vx * params.bounceFactor}
  | some .right =>
      {b with x := b.x + minOverlap,
              vx := if |b.vx| < params.landingThreshold then 0
                    else -b.vx * params.bounceFactor}
  | none => b

/-- The body of the obstacle `forEach` (lines 646–741): skip rectangles fully
outside the viewport; on AABB overlap set `didCollide`, run the
menu-button enter/exit tracking, play the landing sound when `|vy| > 100`,
shake untagged `DIV` pieces, and resolve the collision. -/
def processObstacle (e : Env) (charRect : Rect) (s : LoopState) (obs : Obstacle) : LoopState :=
  if obs.rect.right < 0 ∨ obs.rect.left > e.innerWidth ∨
     obs.rect.bottom < 0 ∨ obs.rect.top > e.innerHeight then s
  else if isColliding charRect obs.rect then
    let s : LoopState := {s with didCollide := true}
    let s : LoopState :=
      match obs.menuItem with
      | some buttonName =>
          if some buttonName ≠ s.body.lastCollidedButton then
            {s with events := s.events ++ [Notif.buttonEnter buttonName],
                    body := {s.body with lastCollidedButton := some buttonName}}
          else s
      | none =>
          match s.body.lastCollidedButton with
          | some prev =>
              {s with events := s.events ++ [Notif.buttonExit prev],
                      body := {s.body with lastCollidedButton := none}}
          | none => s
    let s : LoopState :=
      if |s.body.vy| > 100 then {s with events := s.events ++ [Notif.landed]} else s
    let s : LoopState :=
      if obs.menuItem = none ∧ obs.isDiv = true then
        {s with events := s.events ++ [Notif.pieceShaken]} else s
    {s with body := resolveCollision e charRect obs s.body}
  else s

/-- End-of-frame button restoration (lines 744–747): if nothing collided this
frame but a button was active, emit its exit and clear the ref. -/
def finalizeButtons (s : LoopState) : LoopState :=
  if s.didCollide = false then
    match s.body.lastCollidedButton with
    | some prev =>
        {s with events := s.events ++ [Notif.buttonExit prev],
                body := {s.body with lastCollidedButton := none}}
    | none => s
  else s

/-- The continuation test (lines 761–765): request another frame iff dragging
or a velocity component has magnitude above 1 px/s. -/
def continuesAnimation (b : Body) : Bool :=
  b.dragging || decide (|b.vx| > 1) || decide (|b.vy| > 1)

/-- Result of one physics step: the updated body, the notifications emitted,
and whether another animation frame was requested. -/
structure StepResult where
  body : Body
  events : List Notif
  scheduledNext : Bool

/-- Gravity and explicit Euler integration (lines 611–614): `vy` gains
`gravity * dt` unless dragging, then the position advances by `v * dt`. -/
def integrate (dt : ℚ) (b0 : Body) : Body :=
  let b1 := if b0.dragging then b0 else {b0 with vy := b0.vy + gravity * dt}
  {b1 with x := b1.x + b1.vx * dt, y := b1.y + b1.vy * dt}

/-- One physics step with an already-computed time delta `dt` (seconds):
gravity (unless dragging), explicit Euler integration, viewport boundary
clamps, the obstacle loop over the frame's obstacle list, the end-of-frame
button restoration, and the continuation test. -/
def stepWithDt (e : Env) (dt : ℚ) (b0 : Body) : StepResult :=
  let b2 := integrate dt b0
  let pb := applyBoundary e b2
  let charRect := charRectOf e pb.1
  let s := e.obstacles.foldl (processObstacle e charRect) ⟨pb.1, false, pb.2⟩
  let s := finalizeButtons s
  ⟨s.body, s.events, continuesAnimation s.body⟩

/-- The time delta actually used for integration (line 608):
`const dt = Math.min((time - lastTimeRef.current) / 1000, 0.1);`. -/
def dtUsed (time lastTime : ℚ) : ℚ :=
  min ((time - lastTime) / 1000) 0.1

/-- `physicsStep(time)` on a normal frame (one where `lastTimeRef` is already
set): compute `dt` from the timestamps, then run the step. -/
def physicsStep (e : Env) (time lastTime : ℚ) (b : Body) : StepResult :=
  stepWithDt e (dtUsed time lastTime) b

/-- Running a step per frame over a list of per-frame environments with a
fixed time delta, collecting all notifications in order. -/
def runSteps (dt : ℚ) : List Env → Body → Body × List Notif
  | [], b => (b, [])
  | e :: rest, b =>
      let r := stepWithDt e dt b
      let t := runSteps dt rest r.body
      (t.1, r.events ++ t.2)

/-- An obstacle takes part in this frame's collision handling iff its
rectangle is not fully outside the viewport (the skip at lines 652–659) and
it passes the AABB test against the frame's character rectangle. -/
def participates (e : Env) (cR : Rect) (o : Obstacle) : Prop :=
  ¬(o.rect.right < 0 ∨ o.rect.left > e.innerWidth ∨
    o.rect.bottom < 0 ∨ o.rect.top > e.innerHeight) ∧
  isColliding cR o.rect = true

/-- The character rectangle a frame tests obstacles against: the box at the
boundary-clamped integrated position (line 641). -/
def frameRect (e : Env) (dt : ℚ) (b : Body) : Rect :=
  charRectOf e (applyBoundary e (integrate dt b)).1

/-- The loop state entering the obstacle `forEach`: the boundary-clamped
body, `didCollide = false`, and the boundary notifications. -/
def frameInit (e : Env) (dt : ℚ) (b : Body) : LoopState :=
  ⟨(applyBoundary e (integrate dt b)).1, false, (applyBoundary e (integrate dt b)).2⟩

/-- Number of occurrences of a notification in an event log. -/
def countNotif (x : Notif) (l : List Notif) : ℕ :=
  (l.filter (fun y => y = x)).length

/-- Running one physics step per frame over a list of per-frame inputs
(environment and time delta), collecting all notifications in order. -/
def runFrames : List (Env × ℚ) → Body → Body × List Notif
  | [], b => (b, [])
  | p :: rest, b =>
      let r := stepWithDt p.1 p.2 b
      let t := runFrames rest r.body
      (t.1, r.events ++ t.2)

/-- A frame in which exactly one obstacle participates, and it carries the
given menu tag: the body's box overlaps the tagged obstacle and no other
obstacle overlaps. -/
def tagOverlapFrame (tag : String) (p : Env × ℚ) (b : Body) : Prop :=
  ∃ l1 o l2, p.1.obstacles = l1 ++ o :: l2 ∧ o.menuItem = some tag ∧
    participates p.1 (frameRect p.1 p.2 b) o ∧
    (∀ o' ∈ l1, ¬ participates p.1 (frameRect p.1 p.2 b) o') ∧
    (∀ o' ∈ l2, ¬ participates p.1 (frameRect p.1 p.2 b) o')

/-- A frame in which exactly two obstacles participate, tagged `a` and
`tagB` in list order: the body's box simultaneously overlaps two tagged
obstacles. -/
def twoTagOverlapFrame (a tagB : String) (p : Env × ℚ) (b : Body) : Prop :=
  ∃ l1 oa l2 ob l3,
    p.1.obstacles = l1 ++ oa :: (l2 ++ ob :: l3) ∧
    oa.menuItem = some a ∧ ob.menuItem = some tagB ∧
    participates p.1 (frameRect p.1 p.2 b) oa ∧
    participates p.1 (frameRect p.1 p.2 b) ob ∧
    (∀ o' ∈ l1, ¬ participates p.1 (frameRect p.1 p.2 b) o') ∧
    (∀ o' ∈ l2, ¬ participates p.1 (frameRect p.1 p.2 b) o') ∧
    (∀ o' ∈ l3, ¬ participates p.1 (frameRect p.1 p.2 b) o')

/-- A frame in which no obstacle overlaps the body's box. -/
def noOverlapFrame (p : Env × ℚ) (b : Body) : Prop :=
  ∀ o ∈ p.1.obstacles, ¬ participates p.1 (frameRect p.1 p.2 b) o

/-- Along the run, every frame overlaps the single tagged obstacle (the body
evolving by the real physics step). -/
def allTagOverlap (tag : String) : List (Env × ℚ) → Body → Prop
  | [], _ => True
  | p :: rest, b => tagOverlapFrame tag p b ∧
      allTagOverlap tag rest (stepWithDt p.1 p.2 b).body

/-- Along the run, no frame has any overlapping obstacle. -/
def allNoOverlap : List (Env × ℚ) → Body → Prop
  | [], _ => True
  | p :: rest, b => noOverlapFrame p b ∧ allNoOverlap rest (stepWithDt p.1 p.2 b).body

/-- The scheduling state: the body plus whether an animation frame is
currently requested (`animationFrameRef.current !== null`). -/
structure SchedState where
  body : Body
  running : Bool

/-- The discrete inputs that can reach the physics unit: an animation frame
callback, drag start/move/end, a click impulse, the keyboard jump (same
impulse as click, with random horizontal component `r`), and the arrow keys. -/
inductive InputEvent where
  | frame (e : Env) (dt : ℚ)
  | dragStart
  | dragMove (nx ny : ℚ)
  | dragEnd
  | click (r : ℚ)
  | keyJump (r : ℚ)
  | keyArrowLeft
  | keyArrowRight (innerWidth : ℚ)

/-- The input handlers of the component: `physicsStep` fires only while
scheduled and re-requests per its continuation test; `handleDragStart` sets
`dragging` and cancels the pending frame; `handleDragMove` sets the position
directly while dragging; `handleDragEnd` clears `dragging` and resumes the
loop; `handleClick` / the Space key set `vy = -800`, add a random horizontal
component and resume; the arrow keys nudge `x` directly. -/
def applyEvent (s : SchedState) : InputEvent → SchedState
  | .frame e dt =>
      if s.running then
        let r := stepWithDt e dt s.body
        ⟨r.body, r.scheduledNext⟩
      else s
  | .dragStart => ⟨{s.body with dragging := true}, false⟩
  | .dragMove nx ny =>
      if s.body.dragging then ⟨{s.body with x := nx, y := ny}, s.running⟩ else s
  | .dragEnd =>
      if s.body.dragging then ⟨{s.body with dragging := false}, true⟩ else s
  | .click r =>
      if s.body.dragging then s
      else ⟨{s.body with vy := -800, vx := s.body.vx + r}, true⟩
  | .keyJump r =>
      if s.body.dragging then s
      else ⟨{s.body with vy := -800, vx := s.body.vx + r}, true⟩
  | .keyArrowLeft => ⟨{s.body with x := max 0 (s.body.x - 20)}, s.running⟩
  | .keyArrowRight w => ⟨{s.body with x := min (w - 48) (s.body.x + 20)}, s.running⟩

/-- Modelled from the claim's words (C4), for comparison with the code's
`resolutionAxis`: choose the axis with the smallest of the four overlap
depths, ties broken by the fixed priority top, bottom, left, right. -/
def specMinAxis (oL oR oT oB : ℚ) : Axis :=
  if oT ≤ oL ∧ oT ≤ oR ∧ oT ≤ oB then .top
  else if oB ≤ oL ∧ oB ≤ oR ∧ oB ≤ oT then .bottom
  else if oL ≤ oR ∧ oL ≤ oT ∧ oL ≤ oB then .left
  else .right

/-! ## Concrete frame configurations used in the claim analyses -/

/-- A wide obstacle occupying the right portion of a 100×100 viewport. -/
def envC1 : Env := ⟨100, 100, 10, 10, [⟨⟨5, 100, 0, 100⟩, none, false, false, 0⟩]⟩

/-- A falling body whose integrated position ends flush with the left edge,
overlapping `envC1`'s obstacle with the left axis winning. -/
def bodyC1 : Body := ⟨0, 40, 0, -20, false, none⟩

/-- An obstacle-free 1000×1000 viewport for a 10×10 character. -/
def envFree : Env := ⟨1000, 1000, 10, 10, []⟩

/-- A body in mid-air, far from all boundaries, falling at 100 px/s. -/
def bodyC2 : Body := ⟨500, 500, 0, 100, false, none⟩

/-- An obstacle-free 100×100 viewport for a 10×10 character. -/
def envC3 : Env := ⟨100, 100, 10, 10, []⟩

/-- A body that will cross the bottom boundary during the next step. -/
def bodyC3 : Body := ⟨45, 85, 0, 100, false, none⟩

/-- A body at rest in mid-air, far from all boundaries. -/
def bodyC3w : Body := ⟨500, 500, 0, 0, false, none⟩

/-- A ground-class obstacle spanning `[gl, gr] × [T, gb]`. -/
def groundObstacle (gl gr T gb : ℚ) : Obstacle := ⟨⟨gl, gr, T, gb⟩, none, false, false, 0⟩

/-- A viewport containing the single ground obstacle. -/
def groundEnv (W H w h gl gr T gb : ℚ) : Env := ⟨W, H, w, h, [groundObstacle gl gr T gb]⟩

/-- The frame-to-frame body transformation over the ground-obstacle scene:
one physics step per animation frame with a fixed time delta. -/
def restF (W H w h gl gr T gb dt : ℚ) : Body → Body :=
  fun bb => (stepWithDt (groundEnv W H w h gl gr T gb) dt bb).body

/-- A body resting on top of the ground obstacle (`y = top − height`,
`vy = 0`) with initial horizontal velocity `vx0`. -/
def restB0 (x0 vx0 T h : ℚ) : Body := ⟨x0, T - h, vx0, 0, false, none⟩

/-- A still, dragged body (position controlled by the pointer), used for the
tag-tracking frame sequences. -/
def bodyStill : Body := ⟨100, 100, 0, 0, true, none⟩

/-- A tagged menu-button obstacle coinciding with `bodyStill`'s box. -/
def buttonObstacle (tag : String) : Obstacle := ⟨⟨100, 110, 100, 110⟩, some tag, false, false, 0⟩

/-- A frame in which the tagged obstacle overlaps the body. -/
def envOver (tag : String) : Env := ⟨1000, 1000, 10, 10, [buttonObstacle tag]⟩

/-- The same tagged obstacle after moving far away from the body. -/
def awayObstacle (tag : String) : Obstacle := ⟨⟨500, 510, 500, 510⟩, some tag, false, false, 0⟩

/-- A frame in which the tagged obstacle no longer overlaps the body. -/
def envAway (tag : String) : Env := ⟨1000, 1000, 10, 10, [awayObstacle tag]⟩

/-- A frame with two distinct tagged obstacles both overlapping the body. -/
def envBoth (a b : String) : Env := ⟨1000, 1000, 10, 10, [buttonObstacle a, buttonObstacle b]⟩

/-- A second tagged obstacle overlapping the body's settled position
`(100, 90)`, used for the direct move from one button to another. -/
def switchObstacle (tag : String) : Obstacle := ⟨⟨100, 110, 90, 100⟩, some tag, false, false, 0⟩

/-- A frame containing only the second tagged obstacle. -/
def envSwitch (tag : String) : Env := ⟨1000, 1000, 10, 10, [switchObstacle tag]⟩

/-- A zero-sized obstacle rectangle (all coordinates 0), as produced by a
hidden element's `getBoundingClientRect`. -/
def zeroObstacle : Obstacle := ⟨⟨0, 0, 0, 0⟩, none, false, false, 0⟩

/-- A 1000×1000 viewport whose only obstacle is the zero-sized one. -/
def envC8 : Env := ⟨1000, 1000, 10, 10, [zeroObstacle]⟩

/-- A body moving up-left so that its integrated box touches the origin,
where the zero-sized obstacle sits. -/
def bodyC8 : Body := ⟨0, 2, 0, -220, false, none⟩

/-- An obstacle present in the scene but far from the body, exercising the
present-but-not-overlapping case. -/
def farObstacle : Obstacle := ⟨⟨100, 110, 100, 110⟩, none, false, false, 0⟩

/-- An obstacle lying entirely to the left of the viewport
(`rect.right < 0`), which the loop's visibility short-circuit skips. -/
def offObstacle : Obstacle := ⟨⟨-50, -10, 0, 10⟩, none, false, false, 0⟩

/-! ## Helper lemmas -/

theorem min4_le_left (oL oR oT oB : ℚ) : min (min (min oL oR) oT) oB ≤ oL :=
  le_trans (min_le_left _ _) (le_trans (min_le_left _ _) (min_le_left _ _))

theorem min4_le_right (oL oR oT oB : ℚ) : min (min (min oL oR) oT) oB ≤ oR :=
  le_trans (min_le_left _ _) (le_trans (min_le_left _ _) (min_le_right _ _))

theorem min4_le_top (oL oR oT oB : ℚ) : min (min (min oL oR) oT) oB ≤ oT :=
  le_trans (min_le_left _ _) (min_le_right _ _)

theorem min4_le_bottom (oL oR oT oB : ℚ) : min (min (min oL oR) oT) oB ≤ oB :=
  min_le_right _ _

theorem min4_choice (oL oR oT oB : ℚ) :
    min (min (min oL oR) oT) oB = oL ∨ min (min (min oL oR) oT) oB = oR ∨
    min (min (min oL oR) oT) oB = oT ∨ min (min (min oL oR) oT) oB = oB := by
  rcases min_choice (min (min oL oR) oT) oB with h | h
  · rw [h]
    rcases min_choice (min oL oR) oT with h' | h'
    · rw [h']
      rcases min_choice oL oR with h'' | h''
      · exact Or.inl h''
      · exact Or.inr (Or.inl h'')
    · exact Or.inr (Or.inr (Or.inl h'))
  · exact Or.inr (Or.inr (Or.inr h))

/-- When no boundary fires, `applyBoundary` returns the body unchanged and
emits nothing. -/
theorem applyBoundary_id (e : Env) (b : Body)
    (hx0 : ¬ (b.x < 0)) (hx1 : ¬ (b.x + e.charWidth > e.innerWidth))
    (hy0 : ¬ (b.y < 0)) (hy1 : ¬ (b.y + e.charHeight > e.innerHeight)) :
    applyBoundary e b = (b, []) := by
  unfold applyBoundary
  simp only [if_neg hx0, if_neg hx1, if_neg hy0, if_neg hy1]

/-- The end-of-frame button restoration does not move the body. -/
theorem finalizeButtons_body_motion (s : LoopState) :
    (finalizeButtons s).body.x = s.body.x ∧ (finalizeButtons s).body.y = s.body.y ∧
    (finalizeButtons s).body.vx = s.body.vx ∧ (finalizeButtons s).body.vy = s.body.vy := by
  unfold finalizeButtons
  split
  · split <;> simp
  · simp

/-- A step with no obstacles, whose integrated position stays inside the
viewport, is pure gravity plus Euler integration. -/
theorem stepWithDt_free (e : Env) (dt : ℚ) (b : Body)
    (hobs : e.obstacles = [])
    (hx0 : 0 ≤ b.x + b.vx * dt)
    (hx1 : b.x + b.vx * dt + e.charWidth ≤ e.innerWidth)
    (hy0 : 0 ≤ b.y + (if b.dragging then b.vy else b.vy + gravity * dt) * dt)
    (hy1 : b.y + (if b.dragging then b.vy else b.vy + gravity * dt) * dt + e.charHeight
             ≤ e.innerHeight) :
    (stepWithDt e dt b).body.x = b.x + b.vx * dt ∧
    (stepWithDt e dt b).body.y
        = b.y + (if b.dragging then b.vy else b.vy + gravity * dt) * dt ∧
    (stepWithDt e dt b).body.vx = b.vx ∧
    (stepWithDt e dt b).body.vy = (if b.dragging then b.vy else b.vy + gravity * dt) := by
  cases hd : b.dragging <;>
    simp only [hd, Bool.false_eq_true, Bool.true_eq_false, ite_true, ite_false,
               if_true, if_false] at hy0 hy1 ⊢ <;>
  · unfold stepWithDt integrate
    simp only [hd, Bool.false_eq_true, Bool.true_eq_false, ite_true, ite_false,
               if_true, if_false]
    rw [applyBoundary_id e _ (show ¬ (_ < (0:ℚ)) by push_neg; exact hx0)
          (by push_neg; exact hx1) (by push_neg; exact hy0) (by push_neg; exact hy1)]
    simp only [hobs, List.foldl_nil]
    obtain ⟨m1, m2, m3, m4⟩ := finalizeButtons_body_motion ⟨_, false, []⟩
    rw [m1, m2, m3, m4]
    exact ⟨rfl, rfl, rfl, rfl⟩

/-- The boundary clamps leave the body inside the viewport whenever the
character fits into it. -/
theorem applyBoundary_inside (e : Env) (b : Body)
    (hw : e.charWidth ≤ e.innerWidth) (hh : e.charHeight ≤ e.innerHeight) :
    0 ≤ (applyBoundary e b).1.x ∧ (applyBoundary e b).1.x ≤ e.innerWidth - e.charWidth ∧
    0 ≤ (applyBoundary e b).1.y ∧ (applyBoundary e b).1.y ≤ e.innerHeight - e.charHeight := by
  unfold applyBoundary
  split_ifs <;> simp_all
  all_goals try (split_ifs <;> simp_all)
  all_goals (repeat' apply And.intro)
  all_goals linarith

/-- With no obstacles, the step's final position is the boundary-clamped
integrated position. -/
theorem stepWithDt_noObstacles_body (e : Env) (dt : ℚ) (b : Body)
    (hobs : e.obstacles = []) :
    (stepWithDt e dt b).body.x = (applyBoundary e (integrate dt b)).1.x ∧
    (stepWithDt e dt b).body.y = (applyBoundary e (integrate dt b)).1.y := by
  unfold stepWithDt
  simp only [hobs, List.foldl_nil]
  exact ⟨(finalizeButtons_body_motion _).1, (finalizeButtons_body_motion _).2.1⟩

/-- Updating only the event log of a loop state does not change the body. -/
theorem ite_events_body (c : Prop) [Decidable c] (s : LoopState) (ev : List Notif) :
    (if c then {s with events := ev} else s).body = s.body := by
  split <;> rfl

/-- Updating only the event log does not change the `didCollide` flag. -/
theorem ite_events_didCollide (c : Prop) [Decidable c] (s : LoopState) (ev : List Notif) :
    (if c then {s with events := ev} else s).didCollide = s.didCollide := by
  split <;> rfl

/-- When the top overlap is the smallest depth, the code's axis dispatch
picks `top` (it wins all ties, being tested first). -/
theorem resolutionAxis_top (oL oR oT oB : ℚ)
    (h1 : oT ≤ oL) (h2 : oT ≤ oR) (h3 : oT ≤ oB) :
    resolutionAxis oL oR oT oB = some Axis.top := by
  simp only [resolutionAxis]
  rw [if_pos (le_antisymm (min4_le_top oL oR oT oB)
        (le_min (le_min (le_min h1 h2) le_rfl) h3))]

/-- One step of a body resting on the wide ground obstacle: gravity pulls the
body into the obstacle, the top axis wins, and the soft-landing branch
re-pins `y`, zeroes `vy`, applies friction to `vx` and snaps it to 0 below
the ground epsilon 5. -/
theorem restingStep (W H w h gl gr T gb dt : ℚ) (b : Body)
    (hw : 0 < w) (hh : h ≤ T)
    (hdt : 0 < dt) (hthr : gravity * dt < 150)
    (hDw : gravity * dt * dt ≤ w)
    (hDb : 2 * (gravity * dt * dt) ≤ gb - T + h)
    (hTH : T + gravity * dt * dt ≤ H)
    (hgl : gl ≤ 0) (hgr : W ≤ gr)
    (hby : b.y = T - h) (hbvy : b.vy = 0) (hbd : b.dragging = false)
    (hbl : b.lastCollidedButton = none)
    (hx0 : 0 ≤ b.x + b.vx * dt) (hx1 : b.x + b.vx * dt + w ≤ W) :
    (stepWithDt (groundEnv W H w h gl gr T gb) dt b).body =
      ⟨b.x + b.vx * dt, T - h,
       if |b.vx * PHYSICS_PARAMS.ground.friction| < 5 then 0
       else b.vx * PHYSICS_PARAMS.ground.friction,
       0, false, none⟩ := by
  have hg : (0:ℚ) < gravity := by norm_num [gravity]
  have hD : 0 < gravity * dt * dt := mul_pos (mul_pos hg hdt) hdt
  have hint : integrate dt b =
      ⟨b.x + b.vx * dt, T - h + gravity * dt * dt, b.vx, gravity * dt, false, none⟩ := by
    simp [integrate, hbd, hby, hbvy, hbl]
  have hbound : applyBoundary (⟨W, H, w, h, [⟨⟨gl, gr, T, gb⟩, none, false, false, 0⟩]⟩ : Env)
      ⟨b.x + b.vx * dt, T - h + gravity * dt * dt, b.vx, gravity * dt, false, none⟩ =
      (⟨b.x + b.vx * dt, T - h + gravity * dt * dt, b.vx, gravity * dt, false, none⟩, []) := by
    apply applyBoundary_id
    · show ¬ (b.x + b.vx * dt < 0)
      linarith
    · show ¬ (b.x + b.vx * dt + w > W)
      linarith
    · show ¬ (T - h + gravity * dt * dt < 0)
      linarith
    · show ¬ (T - h + gravity * dt * dt + h > H)
      linarith
  have hcol : isColliding
      (⟨b.x + b.vx * dt, b.x + b.vx * dt + w,
        T - h + gravity * dt * dt, T - h + gravity * dt * dt + h⟩ : Rect)
      (⟨gl, gr, T, gb⟩ : Rect) = true := by
    simp only [isColliding, Bool.not_eq_true',
               Bool.or_eq_false_iff, decide_eq_false_iff_not, not_lt]
    refine ⟨⟨⟨?_, ?_⟩, ?_⟩, ?_⟩ <;> linarith
  have hf1 : ¬ (gr < (0:ℚ)) := by linarith
  have hf2 : ¬ (gl > W) := by
    simp only [gt_iff_lt, not_lt]
    linarith
  have hf3 : ¬ (gb < (0:ℚ)) := by linarith
  have hf4 : ¬ (T > H) := by
    simp only [gt_iff_lt, not_lt]
    linarith
  have hthrA : |gravity * dt| < PHYSICS_PARAMS.ground.landingThreshold := by
    show |gravity * dt| < 150
    rw [abs_of_pos (mul_pos hg hdt)]
    exact hthr
  simp only [stepWithDt, groundEnv, groundObstacle, hint, hbound, charRectOf,
             List.foldl_cons, List.foldl_nil]
  simp only [processObstacle, hf1, hf2, hf3, hf4, hcol, or_self, or_false, false_or,
             if_false, if_true, ite_true, ite_false, ite_events_body, ite_events_didCollide]
  simp only [resolveCollision]
  rw [resolutionAxis_top (b.x + b.vx * dt + w - gl) (gr - (b.x + b.vx * dt))
        (T - h + gravity * dt * dt + h - T) (gb - (T - h + gravity * dt * dt))
        (by linarith) (by linarith) (by linarith)]
  simp only [finalizeButtons, ite_events_body, ite_events_didCollide, hthrA,
             if_true, ite_true, if_false, ite_false, add_zero]
  split_ifs <;> simp_all

/-- The resting invariant advances by one step: the step takes the
soft-landing branch, and the accumulated horizontal travel stays within the
geometric-series bound `20·|vx0|·dt·(1 − friction^(n+1))`. -/
theorem restingAdvance (W H w h gl gr T gb dt x0 vx0 : ℚ) (n : ℕ) (bn : Body)
    (hw : 0 < w) (hh : h ≤ T) (hdt : 0 < dt) (hthr : gravity * dt < 150)
    (hDw : gravity * dt * dt ≤ w)
    (hDb : 2 * (gravity * dt * dt) ≤ gb - T + h)
    (hTH : T + gravity * dt * dt ≤ H)
    (hgl : gl ≤ 0) (hgr : W ≤ gr)
    (hmx0 : 20 * |vx0| * dt ≤ x0)
    (hmx1 : x0 + w + 20 * |vx0| * dt ≤ W)
    (iy : bn.y = T - h) (ivy : bn.vy = 0) (idrag : bn.dragging = false)
    (ilast : bn.lastCollidedButton = none)
    (ivx : |bn.vx| ≤ |vx0| * PHYSICS_PARAMS.ground.friction ^ n)
    (ix : |bn.x - x0| ≤ 20 * |vx0| * dt * (1 - PHYSICS_PARAMS.ground.friction ^ n)) :
    (stepWithDt (groundEnv W H w h gl gr T gb) dt bn).body =
      ⟨bn.x + bn.vx * dt, T - h,
       if |bn.vx * PHYSICS_PARAMS.ground.friction| < 5 then 0
       else bn.vx * PHYSICS_PARAMS.ground.friction, 0, false, none⟩ ∧
    |bn.x + bn.vx * dt - x0|
        ≤ 20 * |vx0| * dt * (1 - PHYSICS_PARAMS.ground.friction ^ (n + 1)) := by
  have hq0 : (0:ℚ) ≤ PHYSICS_PARAMS.ground.friction := by norm_num [PHYSICS_PARAMS]
  have h20 : (20:ℚ) * PHYSICS_PARAMS.ground.friction = 19 := by norm_num [PHYSICS_PARAMS]
  have hqn0 : (0:ℚ) ≤ PHYSICS_PARAMS.ground.friction ^ n := pow_nonneg hq0 n
  have hqsn0 : (0:ℚ) ≤ PHYSICS_PARAMS.ground.friction ^ (n + 1) := pow_nonneg hq0 _
  have htravel : |bn.x + bn.vx * dt - x0|
      ≤ 20 * |vx0| * dt * (1 - PHYSICS_PARAMS.ground.friction ^ (n + 1)) := by
    have hrw : bn.x + bn.vx * dt - x0 = (bn.x - x0) + bn.vx * dt := by ring
    calc |bn.x + bn.vx * dt - x0| = |(bn.x - x0) + bn.vx * dt| := by rw [hrw]
      _ ≤ |bn.x - x0| + |bn.vx * dt| := abs_add _ _
      _ = |bn.x - x0| + |bn.vx| * dt := by rw [abs_mul, abs_of_pos hdt]
      _ ≤ 20 * |vx0| * dt * (1 - PHYSICS_PARAMS.ground.friction ^ n)
            + (|vx0| * PHYSICS_PARAMS.ground.friction ^ n) * dt := by
          have := mul_le_mul_of_nonneg_right ivx hdt.le
          linarith
      _ = 20 * |vx0| * dt * (1 - PHYSICS_PARAMS.ground.friction ^ (n + 1)) := by
          rw [pow_succ]
          linear_combination (|vx0| * dt * PHYSICS_PARAMS.ground.friction ^ n) * h20
  have hMnn : (0:ℚ) ≤ 20 * |vx0| * dt * PHYSICS_PARAMS.ground.friction ^ (n + 1) := by
    have : (0:ℚ) ≤ 20 * |vx0| * dt := by
      have := abs_nonneg vx0
      nlinarith
    exact mul_nonneg this hqsn0
  obtain ⟨hlow, hhigh⟩ := abs_le.mp htravel
  have hx0' : 0 ≤ bn.x + bn.vx * dt := by nlinarith
  have hx1' : bn.x + bn.vx * dt + w ≤ W := by nlinarith
  exact ⟨restingStep W H w h gl gr T gb dt bn hw hh hdt hthr hDw hDb hTH hgl hgr
           iy ivy idrag ilast hx0' hx1', htravel⟩

/-- The resting invariant holds at every frame: the body stays pinned on the
obstacle with `vy = 0`, `|vx|` decays geometrically by `friction`, and the
total horizontal travel stays within the margin `20·|vx0|·dt`. -/
theorem restingIter_props (W H w h gl gr T gb dt x0 vx0 : ℚ)
    (hw : 0 < w) (hh : h ≤ T) (hdt : 0 < dt) (hthr : gravity * dt < 150)
    (hDw : gravity * dt * dt ≤ w)
    (hDb : 2 * (gravity * dt * dt) ≤ gb - T + h)
    (hTH : T + gravity * dt * dt ≤ H)
    (hgl : gl ≤ 0) (hgr : W ≤ gr)
    (hmx0 : 20 * |vx0| * dt ≤ x0)
    (hmx1 : x0 + w + 20 * |vx0| * dt ≤ W) (n : ℕ) :
    ((restF W H w h gl gr T gb dt)^[n] (restB0 x0 vx0 T h)).y = T - h ∧
    ((restF W H w h gl gr T gb dt)^[n] (restB0 x0 vx0 T h)).vy = 0 ∧
    ((restF W H w h gl gr T gb dt)^[n] (restB0 x0 vx0 T h)).dragging = false ∧
    ((restF W H w h gl gr T gb dt)^[n] (restB0 x0 vx0 T h)).lastCollidedButton = none ∧
    |((restF W H w h gl gr T gb dt)^[n] (restB0 x0 vx0 T h)).vx|
        ≤ |vx0| * PHYSICS_PARAMS.ground.friction ^ n ∧
    |((restF W H w h gl gr T gb dt)^[n] (restB0 x0 vx0 T h)).x - x0|
        ≤ 20 * |vx0| * dt * (1 - PHYSICS_PARAMS.ground.friction ^ n) := by
  have hq0 : (0:ℚ) ≤ PHYSICS_PARAMS.ground.friction := by norm_num [PHYSICS_PARAMS]
  induction n with
  | zero =>
      refine ⟨rfl, rfl, rfl, rfl, ?_, ?_⟩
      · simp [restB0]
      · simp [restB0]
  | succ n ih =>
      obtain ⟨iy, ivy, idrag, ilast, ivx, ix⟩ := ih
      obtain ⟨hstep, htravel⟩ := restingAdvance W H w h gl gr T gb dt x0 vx0 n
        ((restF W H w h gl gr T gb dt)^[n] (restB0 x0 vx0 T h))
        hw hh hdt hthr hDw hDb hTH hgl hgr hmx0 hmx1 iy ivy idrag ilast ivx ix
      have hiter : (restF W H w h gl gr T gb dt)^[n+1] (restB0 x0 vx0 T h) =
          ⟨((restF W H w h gl gr T gb dt)^[n] (restB0 x0 vx0 T h)).x
             + ((restF W H w h gl gr T gb dt)^[n] (restB0 x0 vx0 T h)).vx * dt, T - h,
           if |((restF W H w h gl gr T gb dt)^[n] (restB0 x0 vx0 T h)).vx
                * PHYSICS_PARAMS.ground.friction| < 5 then 0
           else ((restF W H w h gl gr T gb dt)^[n] (restB0 x0 vx0 T h)).vx
                  * PHYSICS_PARAMS.ground.friction, 0, false, none⟩ := by
        rw [Function.iterate_succ_apply']
        exact hstep
      refine ⟨by rw [hiter], by rw [hiter], by rw [hiter], by rw [hiter], ?_, ?_⟩
      · rw [hiter]
        show |if |((restF W H w h gl gr T gb dt)^[n] (restB0 x0 vx0 T h)).vx
                * PHYSICS_PARAMS.ground.friction| < 5 then (0:ℚ)
             else ((restF W H w h gl gr T gb dt)^[n] (restB0 x0 vx0 T h)).vx
                  * PHYSICS_PARAMS.ground.friction| ≤ _
        split_ifs with hc
        · rw [abs_zero]
          exact mul_nonneg (abs_nonneg _) (pow_nonneg hq0 _)
        · calc |((restF W H w h gl gr T gb dt)^[n] (restB0 x0 vx0 T h)).vx
                  * PHYSICS_PARAMS.ground.friction|
              = |((restF W H w h gl gr T gb dt)^[n] (restB0 x0 vx0 T h)).vx|
                  * PHYSICS_PARAMS.ground.friction := by rw [abs_mul, abs_of_nonneg hq0]
            _ ≤ |vx0| * PHYSICS_PARAMS.ground.friction ^ n
                  * PHYSICS_PARAMS.ground.friction := mul_le_mul_of_nonneg_right ivx hq0
            _ = |vx0| * PHYSICS_PARAMS.ground.friction ^ (n+1) := by
                rw [pow_succ]; ring
      · rw [hiter]
        exact htravel

set_option maxRecDepth 8000 in
/-- First overlapping frame with the tagged obstacle: one `buttonEnter`,
the tracker takes the tag, and the body settles on top of the button. -/
theorem overStep_enter (tag : String) (dt : ℚ) :
    stepWithDt (envOver tag) dt bodyStill =
      ⟨⟨100, 90, 0, 0, true, some tag⟩, [Notif.buttonEnter tag], true⟩ := by
  norm_num [stepWithDt, integrate, applyBoundary, charRectOf, processObstacle,
            isColliding, resolveCollision, resolutionAxis, finalizeButtons,
            PHYSICS_PARAMS, gravity, bounceFactor, continuesAnimation,
            envOver, buttonObstacle, bodyStill, min_def, abs_of_nonneg, ne_eq, Option.some_ne_none, reduceCtorEq]

set_option maxRecDepth 8000 in
/-- Further overlapping frames: the settled body keeps touching the button,
the tag matches the tracker, and no event is emitted. -/
theorem overStep_stable (tag : String) (dt : ℚ) :
    stepWithDt (envOver tag) dt ⟨100, 90, 0, 0, true, some tag⟩ =
      ⟨⟨100, 90, 0, 0, true, some tag⟩, [], true⟩ := by
  norm_num [stepWithDt, integrate, applyBoundary, charRectOf, processObstacle,
            isColliding, resolveCollision, resolutionAxis, finalizeButtons,
            PHYSICS_PARAMS, gravity, bounceFactor, continuesAnimation,
            envOver, buttonObstacle, min_def, abs_of_nonneg, ne_eq, Option.some_ne_none, reduceCtorEq]

set_option maxRecDepth 8000 in
/-- First frame after the overlap ends: nothing collides, so the
end-of-frame restoration emits the single `buttonExit` and clears the
tracker. -/
theorem awayStep_exit (tag : String) (dt : ℚ) :
    stepWithDt (envAway tag) dt ⟨100, 90, 0, 0, true, some tag⟩ =
      ⟨⟨100, 90, 0, 0, true, none⟩, [Notif.buttonExit tag], true⟩ := by
  norm_num [stepWithDt, integrate, applyBoundary, charRectOf, processObstacle,
            isColliding, resolveCollision, resolutionAxis, finalizeButtons,
            PHYSICS_PARAMS, gravity, bounceFactor, continuesAnimation,
            envAway, awayObstacle, min_def, abs_of_nonneg, ne_eq, Option.some_ne_none, reduceCtorEq]

set_option maxRecDepth 8000 in
/-- Further non-overlapping frames: no events. -/
theorem awayStep_idle (tag : String) (dt : ℚ) :
    stepWithDt (envAway tag) dt ⟨100, 90, 0, 0, true, none⟩ =
      ⟨⟨100, 90, 0, 0, true, none⟩, [], true⟩ := by
  norm_num [stepWithDt, integrate, applyBoundary, charRectOf, processObstacle,
            isColliding, resolveCollision, resolutionAxis, finalizeButtons,
            PHYSICS_PARAMS, gravity, bounceFactor, continuesAnimation,
            envAway, awayObstacle, min_def, abs_of_nonneg, ne_eq, Option.some_ne_none, reduceCtorEq]

set_option maxRecDepth 8000 in
/-- First frame overlapping two distinct tagged obstacles at once: both
tags emit `buttonEnter`, and the tracker ends on the last-processed tag. -/
theorem bothStep_first (a b : String) (hba : b ≠ a) (dt : ℚ) :
    stepWithDt (envBoth a b) dt bodyStill =
      ⟨⟨100, 90, 0, 0, true, some b⟩,
       [Notif.buttonEnter a, Notif.buttonEnter b], true⟩ := by
  norm_num [stepWithDt, integrate, applyBoundary, charRectOf, processObstacle,
            isColliding, resolveCollision, resolutionAxis, finalizeButtons,
            PHYSICS_PARAMS, gravity, bounceFactor, continuesAnimation,
            envBoth, buttonObstacle, bodyStill, min_def, abs_of_nonneg, ne_eq,
            Option.some_ne_none, reduceCtorEq, Option.some.injEq, hba]

set_option maxRecDepth 8000 in
/-- Every further simultaneous-overlap frame re-emits `buttonEnter` for
both tags: each obstacle's tag differs from the tracked one at its
processing point, so the tracker flip-flops. -/
theorem bothStep_again (a b : String) (hab : a ≠ b) (hba : b ≠ a) (dt : ℚ) :
    stepWithDt (envBoth a b) dt ⟨100, 90, 0, 0, true, some b⟩ =
      ⟨⟨100, 90, 0, 0, true, some b⟩,
       [Notif.buttonEnter a, Notif.buttonEnter b], true⟩ := by
  norm_num [stepWithDt, integrate, applyBoundary, charRectOf, processObstacle,
            isColliding, resolveCollision, resolutionAxis, finalizeButtons,
            PHYSICS_PARAMS, gravity, bounceFactor, continuesAnimation,
            envBoth, buttonObstacle, min_def, abs_of_nonneg, ne_eq,
            Option.some_ne_none, reduceCtorEq, Option.some.injEq, hab, hba]

set_option maxRecDepth 8000 in
/-- Moving directly from button `a` to button `b`: only `buttonEnter b` is
emitted and the tracker switches; no `buttonExit a` is produced. -/
theorem switchStep (a b : String) (hba : b ≠ a) (dt : ℚ) :
    stepWithDt (envSwitch b) dt ⟨100, 90, 0, 0, true, some a⟩ =
      ⟨⟨100, 80, 0, 0, true, some b⟩, [Notif.buttonEnter b], true⟩ := by
  norm_num [stepWithDt, integrate, applyBoundary, charRectOf, processObstacle,
            isColliding, resolveCollision, resolutionAxis, finalizeButtons,
            PHYSICS_PARAMS, gravity, bounceFactor, continuesAnimation,
            envSwitch, switchObstacle, min_def, abs_of_nonneg, ne_eq,
            Option.some_ne_none, reduceCtorEq, Option.some.injEq, hba]

/-- Repeating a frame that fixes the body and emits nothing is a no-op. -/
theorem runSteps_replicate_fixed (dt : ℚ) (env : Env) (b : Body) (n : ℕ)
    (hfix : (stepWithDt env dt b).body = b) (he : (stepWithDt env dt b).events = []) :
    runSteps dt (List.replicate n env) b = (b, []) := by
  induction n with
  | zero => simp [runSteps]
  | succ n ih => simp [List.replicate_succ, runSteps, hfix, he, ih]

/-- Running a concatenation of frame lists concatenates the event logs. -/
theorem runSteps_append (dt : ℚ) (l1 l2 : List Env) (b : Body) :
    runSteps dt (l1 ++ l2) b =
      ((runSteps dt l2 (runSteps dt l1 b).1).1,
       (runSteps dt l1 b).2 ++ (runSteps dt l2 (runSteps dt l1 b).1).2) := by
  induction l1 generalizing b with
  | nil => simp [runSteps]
  | cons e rest ih => simp [runSteps, ih]

/-- The empty log contains no notification. -/
theorem countNotif_nil (x : Notif) : countNotif x [] = 0 := rfl

/-- Occurrence counts add over concatenated logs. -/
theorem countNotif_append (x : Notif) (l1 l2 : List Notif) :
    countNotif x (l1 ++ l2) = countNotif x l1 + countNotif x l2 := by
  simp [countNotif, List.filter_append]

/-- A singleton log holds one occurrence of its own entry. -/
theorem countNotif_singleton_same (x : Notif) : countNotif x [x] = 1 := by
  simp [countNotif]

/-- A singleton log holds no occurrence of a different entry. -/
theorem countNotif_singleton_ne (x y : Notif) (h : y ≠ x) : countNotif x [y] = 0 := by
  simp [countNotif, h]

/-- An obstacle that is skipped as off-viewport or fails the AABB test
leaves the loop state untouched. -/
theorem processObstacle_inactive (e : Env) (cR : Rect) (s : LoopState) (o : Obstacle)
    (h : ¬ participates e cR o) :
    processObstacle e cR s o = s := by
  unfold processObstacle
  unfold participates at h
  by_cases h1 : o.rect.right < 0 ∨ o.rect.left > e.innerWidth ∨
      o.rect.bottom < 0 ∨ o.rect.top > e.innerHeight
  · rw [if_pos h1]
  · have h2 : ¬ (isColliding cR o.rect = true) := fun hc => h ⟨h1, hc⟩
    rw [if_neg h1, if_neg h2]

/-- A frame in which no listed obstacle participates leaves the loop state
untouched. -/
theorem foldl_inactive (e : Env) (cR : Rect) (l : List Obstacle) (s : LoopState)
    (h : ∀ o ∈ l, ¬ participates e cR o) :
    List.foldl (processObstacle e cR) s l = s := by
  induction l generalizing s with
  | nil => rfl
  | cons o rest ih =>
      rw [List.foldl_cons, processObstacle_inactive e cR s o (h o (by simp)),
          ih s (fun o' ho' => h o' (by simp [ho']))]

/-- Integration does not touch the button tracker. -/
theorem integrate_last (dt : ℚ) (b : Body) :
    (integrate dt b).lastCollidedButton = b.lastCollidedButton := by
  simp only [integrate]
  split_ifs <;> rfl

/-- The boundary clamps do not touch the button tracker. -/
theorem applyBoundary_last (e : Env) (b : Body) :
    (applyBoundary e b).1.lastCollidedButton = b.lastCollidedButton := by
  simp only [applyBoundary]
  split_ifs <;> rfl

/-- The boundary clamps emit no button notifications (only `landed`). -/
theorem applyBoundary_button_counts (e : Env) (b : Body) (t : String) :
    countNotif (Notif.buttonEnter t) (applyBoundary e b).2 = 0 ∧
    countNotif (Notif.buttonExit t) (applyBoundary e b).2 = 0 := by
  simp only [applyBoundary]
  split_ifs <;> simp [countNotif]

/-- Collision resolution moves the body but never touches the button
tracker. -/
theorem resolveCollision_last (e : Env) (cR : Rect) (o : Obstacle) (b : Body) :
    (resolveCollision e cR o b).lastCollidedButton = b.lastCollidedButton := by
  simp only [resolveCollision]
  split <;> first | rfl | (split_ifs <;> rfl)

/-- The end-of-frame restoration is a no-op on frames that collided. -/
theorem finalizeButtons_collided (s : LoopState) (h : s.didCollide = true) :
    finalizeButtons s = s := by
  unfold finalizeButtons
  rw [if_neg (by simp [h])]

/-- Processing a participating tagged obstacle whose tag differs from the
tracked one emits exactly one `buttonEnter` for its tag (and no other button
events), sets the tracker to it, and marks the frame as collided. -/
theorem processObstacle_tagged_enter (e : Env) (cR : Rect) (s : LoopState) (o : Obstacle)
    (tag : String) (hm : o.menuItem = some tag) (hp : participates e cR o)
    (hne : s.body.lastCollidedButton ≠ some tag) :
    (processObstacle e cR s o).didCollide = true ∧
    (processObstacle e cR s o).body.lastCollidedButton = some tag ∧
    countNotif (Notif.buttonEnter tag) (processObstacle e cR s o).events
      = countNotif (Notif.buttonEnter tag) s.events + 1 ∧
    (∀ t : String, t ≠ tag →
      countNotif (Notif.buttonEnter t) (processObstacle e cR s o).events
        = countNotif (Notif.buttonEnter t) s.events) ∧
    (∀ t : String,
      countNotif (Notif.buttonExit t) (processObstacle e cR s o).events
        = countNotif (Notif.buttonExit t) s.events) := by
  unfold processObstacle
  rw [if_neg hp.1, if_pos hp.2]
  simp only [hm]
  rw [if_pos (Ne.symm hne)]
  refine ⟨?_, ?_, ?_, ?_, ?_⟩
  · split_ifs <;> simp
  · split_ifs <;> simp [resolveCollision_last]
  · split_ifs <;> simp [countNotif_append, countNotif]
  · intro t ht
    split_ifs <;> simp [countNotif_append, countNotif, Ne.symm ht]
  · intro t
    split_ifs <;> simp [countNotif_append, countNotif]

/-- Processing a participating tagged obstacle whose tag is already tracked
emits no button events and keeps the tracker. -/
theorem processObstacle_tagged_same (e : Env) (cR : Rect) (s : LoopState) (o : Obstacle)
    (tag : String) (hm : o.menuItem = some tag) (hp : participates e cR o)
    (hl : s.body.lastCollidedButton = some tag) :
    (processObstacle e cR s o).didCollide = true ∧
    (processObstacle e cR s o).body.lastCollidedButton = some tag ∧
    (∀ t : String,
      countNotif (Notif.buttonEnter t) (processObstacle e cR s o).events
        = countNotif (Notif.buttonEnter t) s.events ∧
      countNotif (Notif.buttonExit t) (processObstacle e cR s o).events
        = countNotif (Notif.buttonExit t) s.events) := by
  unfold processObstacle
  rw [if_neg hp.1, if_pos hp.2]
  simp only [hm]
  rw [if_neg (show ¬ (some tag ≠ s.body.lastCollidedButton) by simp [hl])]
  refine ⟨?_, ?_, ?_⟩
  · split_ifs <;> simp
  · split_ifs <;> simp [resolveCollision_last, hl]
  · intro t
    constructor <;> split_ifs <;> simp [countNotif_append, countNotif]

/-- A step's body and events are those of the finalized obstacle fold over
the frame's loop state. -/
theorem stepWithDt_body_events (e : Env) (dt : ℚ) (b : Body) :
    (stepWithDt e dt b).body = (finalizeButtons (List.foldl
        (processObstacle e (frameRect e dt b)) (frameInit e dt b) e.obstacles)).body
    ∧ (stepWithDt e dt b).events = (finalizeButtons (List.foldl
        (processObstacle e (frameRect e dt b)) (frameInit e dt b) e.obstacles)).events := by
  constructor <;> simp only [stepWithDt, frameRect, frameInit]

/-- The loop state enters the fold with the pre-frame button tracker. -/
theorem frameInit_last (e : Env) (dt : ℚ) (b : Body) :
    (frameInit e dt b).body.lastCollidedButton = b.lastCollidedButton := by
  show (applyBoundary e (integrate dt b)).1.lastCollidedButton = b.lastCollidedButton
  rw [applyBoundary_last, integrate_last]

/-- The loop state enters the fold with no button notifications. -/
theorem frameInit_button_counts (e : Env) (dt : ℚ) (b : Body) (t : String) :
    countNotif (Notif.buttonEnter t) (frameInit e dt b).events = 0 ∧
    countNotif (Notif.buttonExit t) (frameInit e dt b).events = 0 :=
  applyBoundary_button_counts e (integrate dt b) t

/-- A collision-free frame with no tracked button restores nothing. -/
theorem finalizeButtons_free_idle (s : LoopState) (hd : s.didCollide = false)
    (hl : s.body.lastCollidedButton = none) :
    finalizeButtons s = s := by
  unfold finalizeButtons
  rw [if_pos hd]
  split
  next prev heq => rw [hl] at heq; simp at heq
  next => rfl

/-- A collision-free frame with a tracked button emits its single exit and
clears the tracker. -/
theorem finalizeButtons_free_exit (s : LoopState) (u : String) (hd : s.didCollide = false)
    (hl : s.body.lastCollidedButton = some u) :
    finalizeButtons s = {s with events := s.events ++ [Notif.buttonExit u],
                                body := {s.body with lastCollidedButton := none}} := by
  unfold finalizeButtons
  rw [if_pos hd]
  split
  next prev heq =>
    rw [hl] at heq
    injection heq with hh
    subst hh
    rfl
  next heq => rw [hl] at heq; simp at heq

/-- A frame overlapping exactly one tagged obstacle, with a different tag
tracked before it, emits exactly one `buttonEnter` for that tag, nothing
for any other tag, and ends tracking it — for every geometry, body state
and time delta. -/
theorem stepFrame_tagged (tag : String) (e : Env) (dt : ℚ) (b : Body)
    (hov : tagOverlapFrame tag (e, dt) b)
    (hne : b.lastCollidedButton ≠ some tag) :
    (stepWithDt e dt b).body.lastCollidedButton = some tag ∧
    countNotif (Notif.buttonEnter tag) (stepWithDt e dt b).events = 1 ∧
    (∀ t : String, t ≠ tag →
        countNotif (Notif.buttonEnter t) (stepWithDt e dt b).events = 0) ∧
    (∀ t : String, countNotif (Notif.buttonExit t) (stepWithDt e dt b).events = 0) := by
  unfold tagOverlapFrame at hov
  obtain ⟨l1, o, l2, hobs, hm, hp, h1, h2⟩ := hov
  obtain ⟨hb, he⟩ := stepWithDt_body_events e dt b
  have htotal : List.foldl (processObstacle e (frameRect e dt b)) (frameInit e dt b) e.obstacles
      = processObstacle e (frameRect e dt b) (frameInit e dt b) o := by
    rw [show e.obstacles = l1 ++ o :: l2 from hobs, List.foldl_append,
        foldl_inactive e (frameRect e dt b) l1 _ h1, List.foldl_cons,
        foldl_inactive e (frameRect e dt b) l2 _ h2]
  obtain ⟨hdid, hlast, hc1, hc2, hc3⟩ :=
    processObstacle_tagged_enter e (frameRect e dt b) (frameInit e dt b) o tag hm hp
      (by rw [frameInit_last]; exact hne)
  rw [hb, he, htotal, finalizeButtons_collided _ hdid]
  refine ⟨hlast, ?_, ?_, ?_⟩
  · rw [hc1, (frameInit_button_counts e dt b tag).1]
  · intro t ht
    rw [hc2 t ht, (frameInit_button_counts e dt b t).1]
  · intro t
    rw [hc3 t, (frameInit_button_counts e dt b t).2]

/-- A frame overlapping exactly the already-tracked tagged obstacle emits
no button notifications at all. -/
theorem stepFrame_tagged_same (tag : String) (e : Env) (dt : ℚ) (b : Body)
    (hov : tagOverlapFrame tag (e, dt) b)
    (hl : b.lastCollidedButton = some tag) :
    (stepWithDt e dt b).body.lastCollidedButton = some tag ∧
    (∀ t : String,
        countNotif (Notif.buttonEnter t) (stepWithDt e dt b).events = 0 ∧
        countNotif (Notif.buttonExit t) (stepWithDt e dt b).events = 0) := by
  unfold tagOverlapFrame at hov
  obtain ⟨l1, o, l2, hobs, hm, hp, h1, h2⟩ := hov
  obtain ⟨hb, he⟩ := stepWithDt_body_events e dt b
  have htotal : List.foldl (processObstacle e (frameRect e dt b)) (frameInit e dt b) e.obstacles
      = processObstacle e (frameRect e dt b) (frameInit e dt b) o := by
    rw [show e.obstacles = l1 ++ o :: l2 from hobs, List.foldl_append,
        foldl_inactive e (frameRect e dt b) l1 _ h1, List.foldl_cons,
        foldl_inactive e (frameRect e dt b) l2 _ h2]
  obtain ⟨hdid, hlast, hcounts⟩ :=
    processObstacle_tagged_same e (frameRect e dt b) (frameInit e dt b) o tag hm hp
      (by rw [frameInit_last]; exact hl)
  rw [hb, he, htotal, finalizeButtons_collided _ hdid]
  refine ⟨hlast, fun t => ?_⟩
  obtain ⟨hce, hcx⟩ := hcounts t
  rw [hce, hcx, (frameInit_button_counts e dt b t).1, (frameInit_button_counts e dt b t).2]
  exact ⟨rfl, rfl⟩

/-- A frame with no overlap and no tracked button emits no button
notifications. -/
theorem stepFrame_none_idle (e : Env) (dt : ℚ) (b : Body)
    (hno : noOverlapFrame (e, dt) b)
    (hl : b.lastCollidedButton = none) :
    (stepWithDt e dt b).body.lastCollidedButton = none ∧
    (∀ t : String,
        countNotif (Notif.buttonEnter t) (stepWithDt e dt b).events = 0 ∧
        countNotif (Notif.buttonExit t) (stepWithDt e dt b).events = 0) := by
  unfold noOverlapFrame at hno
  obtain ⟨hb, he⟩ := stepWithDt_body_events e dt b
  have htotal : List.foldl (processObstacle e (frameRect e dt b)) (frameInit e dt b) e.obstacles
      = frameInit e dt b :=
    foldl_inactive e (frameRect e dt b) e.obstacles _ hno
  have hfin : finalizeButtons (frameInit e dt b) = frameInit e dt b :=
    finalizeButtons_free_idle _ rfl (by rw [frameInit_last]; exact hl)
  rw [hb, he, htotal, hfin]
  refine ⟨by rw [frameInit_last]; exact hl, fun t => ⟨(frameInit_button_counts e dt b t).1,
    (frameInit_button_counts e dt b t).2⟩⟩

/-- The first frame with no overlap after tracking a button emits exactly
one `buttonExit` for it and clears the tracker. -/
theorem stepFrame_none_exit (e : Env) (dt : ℚ) (b : Body) (u : String)
    (hno : noOverlapFrame (e, dt) b)
    (hl : b.lastCollidedButton = some u) :
    (stepWithDt e dt b).body.lastCollidedButton = none ∧
    countNotif (Notif.buttonExit u) (stepWithDt e dt b).events = 1 ∧
    (∀ t : String, countNotif (Notif.buttonEnter t) (stepWithDt e dt b).events = 0) ∧
    (∀ t : String, t ≠ u → countNotif (Notif.buttonExit t) (stepWithDt e dt b).events = 0) := by
  unfold noOverlapFrame at hno
  obtain ⟨hb, he⟩ := stepWithDt_body_events e dt b
  have htotal : List.foldl (processObstacle e (frameRect e dt b)) (frameInit e dt b) e.obstacles
      = frameInit e dt b :=
    foldl_inactive e (frameRect e dt b) e.obstacles _ hno
  have hfin := finalizeButtons_free_exit (frameInit e dt b) u rfl
    (by rw [frameInit_last]; exact hl)
  rw [hb, he, htotal, hfin]
  refine ⟨rfl, ?_, ?_, ?_⟩
  · show countNotif (Notif.buttonExit u) ((frameInit e dt b).events ++ [Notif.buttonExit u]) = 1
    rw [countNotif_append, (frameInit_button_counts e dt b u).2,
        countNotif_singleton_same]
  · intro t
    show countNotif (Notif.buttonEnter t) ((frameInit e dt b).events ++ [Notif.buttonExit u]) = 0
    rw [countNotif_append, (frameInit_button_counts e dt b t).1,
        countNotif_singleton_ne _ _ (by simp)]
  · intro t ht
    show countNotif (Notif.buttonExit t) ((frameInit e dt b).events ++ [Notif.buttonExit u]) = 0
    rw [countNotif_append, (frameInit_button_counts e dt b t).2,
        countNotif_singleton_ne _ _ (by simp [ht, Ne.symm ht])]

/-- A frame overlapping two participating tagged obstacles emits one
`buttonEnter` for EACH of the two tags (and no exits), ending on the
last-processed tag — for every geometry, body state and time delta. -/
theorem stepFrame_both (a tagB : String) (e : Env) (dt : ℚ) (b : Body)
    (hab : a ≠ tagB)
    (hov : twoTagOverlapFrame a tagB (e, dt) b)
    (hne : b.lastCollidedButton ≠ some a) :
    (stepWithDt e dt b).body.lastCollidedButton = some tagB ∧
    countNotif (Notif.buttonEnter a) (stepWithDt e dt b).events = 1 ∧
    countNotif (Notif.buttonEnter tagB) (stepWithDt e dt b).events = 1 ∧
    (∀ t : String, countNotif (Notif.buttonExit t) (stepWithDt e dt b).events = 0) := by
  unfold twoTagOverlapFrame at hov
  obtain ⟨l1, oa, l2, ob, l3, hobs, hma, hmb, hpa, hpb, h1, h2, h3⟩ := hov
  obtain ⟨hb, he⟩ := stepWithDt_body_events e dt b
  have htotal : List.foldl (processObstacle e (frameRect e dt b)) (frameInit e dt b) e.obstacles
      = processObstacle e (frameRect e dt b)
          (processObstacle e (frameRect e dt b) (frameInit e dt b) oa) ob := by
    rw [show e.obstacles = l1 ++ oa :: (l2 ++ ob :: l3) from hobs, List.foldl_append,
        foldl_inactive e (frameRect e dt b) l1 _ h1, List.foldl_cons,
        List.foldl_append, foldl_inactive e (frameRect e dt b) l2 _ h2,
        List.foldl_cons, foldl_inactive e (frameRect e dt b) l3 _ h3]
  obtain ⟨hdidA, hlastA, hcA1, hcA2, hcA3⟩ :=
    processObstacle_tagged_enter e (frameRect e dt b) (frameInit e dt b) oa a hma hpa
      (by rw [frameInit_last]; exact hne)
  obtain ⟨hdidB, hlastB, hcB1, hcB2, hcB3⟩ :=
    processObstacle_tagged_enter e (frameRect e dt b)
      (processObstacle e (frameRect e dt b) (frameInit e dt b) oa) ob tagB hmb hpb
      (by rw [hlastA]; simp [hab])
  rw [hb, he, htotal, finalizeButtons_collided _ hdidB]
  refine ⟨hlastB, ?_, ?_, ?_⟩
  · rw [hcB2 a hab, hcA1, (frameInit_button_counts e dt b a).1]
  · rw [hcB1, hcA2 tagB (Ne.symm hab), (frameInit_button_counts e dt b tagB).1]
  · intro t
    rw [hcB3 t, hcA3 t, (frameInit_button_counts e dt b t).2]

/-- Running concatenated frame lists concatenates the event logs. -/
theorem runFrames_append (l1 l2 : List (Env × ℚ)) (b : Body) :
    runFrames (l1 ++ l2) b =
      ((runFrames l2 (runFrames l1 b).1).1,
       (runFrames l1 b).2 ++ (runFrames l2 (runFrames l1 b).1).2) := by
  induction l1 generalizing b with
  | nil => simp [runFrames]
  | cons p rest ih => simp [runFrames, ih]

/-- While every frame keeps overlapping the tracked tagged obstacle, no
button notification is emitted and the tracker is unchanged. -/
theorem runFrames_stay (tag : String) (frames : List (Env × ℚ)) (b : Body)
    (hov : allTagOverlap tag frames b) (hl : b.lastCollidedButton = some tag) :
    (runFrames frames b).1.lastCollidedButton = some tag ∧
    ∀ t : String,
      countNotif (Notif.buttonEnter t) (runFrames frames b).2 = 0 ∧
      countNotif (Notif.buttonExit t) (runFrames frames b).2 = 0 := by
  induction frames generalizing b with
  | nil => exact ⟨hl, fun t => ⟨rfl, rfl⟩⟩
  | cons p rest ih =>
      unfold allTagOverlap at hov
      obtain ⟨hf, hrest⟩ := hov
      obtain ⟨hlast', hcounts⟩ := stepFrame_tagged_same tag p.1 p.2 b hf hl
      obtain ⟨ih1, ih2⟩ := ih (stepWithDt p.1 p.2 b).body hrest hlast'
      simp only [runFrames]
      refine ⟨ih1, fun t => ?_⟩
      obtain ⟨hc1, hc2⟩ := hcounts t
      obtain ⟨hc3, hc4⟩ := ih2 t
      rw [countNotif_append, countNotif_append, hc1, hc2, hc3, hc4]
      exact ⟨rfl, rfl⟩

/-- While no frame overlaps anything and nothing is tracked, no button
notification is emitted. -/
theorem runFrames_idle (frames : List (Env × ℚ)) (b : Body)
    (hno : allNoOverlap frames b) (hl : b.lastCollidedButton = none) :
    (runFrames frames b).1.lastCollidedButton = none ∧
    ∀ t : String,
      countNotif (Notif.buttonEnter t) (runFrames frames b).2 = 0 ∧
      countNotif (Notif.buttonExit t) (runFrames frames b).2 = 0 := by
  induction frames generalizing b with
  | nil => exact ⟨hl, fun t => ⟨rfl, rfl⟩⟩
  | cons p rest ih =>
      unfold allNoOverlap at hno
      obtain ⟨hf, hrest⟩ := hno
      obtain ⟨hlast', hcounts⟩ := stepFrame_none_idle p.1 p.2 b hf hl
      obtain ⟨ih1, ih2⟩ := ih (stepWithDt p.1 p.2 b).body hrest hlast'
      simp only [runFrames]
      refine ⟨ih1, fun t => ?_⟩
      obtain ⟨hc1, hc2⟩ := hcounts t
      obtain ⟨hc3, hc4⟩ := ih2 t
      rw [countNotif_append, countNotif_append, hc1, hc2, hc3, hc4]
      exact ⟨rfl, rfl⟩

/-- A step in which no obstacle of the frame participates leaves the body
at the boundary-clamped integrated position. -/
theorem stepWithDt_noCollide (e : Env) (dt : ℚ) (b : Body)
    (hno : ∀ o ∈ e.obstacles, ¬ participates e (frameRect e dt b) o) :
    (stepWithDt e dt b).body.x = (applyBoundary e (integrate dt b)).1.x ∧
    (stepWithDt e dt b).body.y = (applyBoundary e (integrate dt b)).1.y := by
  obtain ⟨hb, _⟩ := stepWithDt_body_events e dt b
  rw [hb, foldl_inactive e (frameRect e dt b) e.obstacles _ hno]
  exact ⟨(finalizeButtons_body_motion _).1, (finalizeButtons_body_motion _).2.1⟩

/-! ## Claim analyses -/

/-- C1 (counterexample): the boundary invariant fails once obstacle
resolution runs after the viewport clamps. In a 100×100 viewport, a 10×10
body whose integrated position is flush with the left edge overlaps a wide
obstacle whose minimum-translation axis is `left`, so the resolution pushes
`position.x` to −5 < 0 and the step completes with the body outside the
viewport. -/
theorem C1_escape_counterexample :
    (stepWithDt envC1 (1/100) bodyC1).body.x < 0 := by
  norm_num [stepWithDt, integrate, applyBoundary, charRectOf, processObstacle,
            isColliding, resolveCollision, resolutionAxis, finalizeButtons,
            gravity, bounceFactor, PHYSICS_PARAMS, continuesAnimation,
            envC1, bodyC1, min_def, abs_of_nonneg, abs_of_nonpos]

/-- C1 (amended): after any step in which no obstacle participates in
collision handling — i.e. every obstacle of the scene is either fully
off-viewport or fails the AABB overlap test against the clamped integrated
body box — the body's bounding box lies inside the viewport:
`0 ≤ position.x ≤ viewportWidth − width` and `0 ≤ position.y ≤
viewportHeight − height`, provided the character fits into the viewport.
The four boundary clamps guarantee it; obstacle resolution, which runs
after the clamps, can break the invariant, as the counterexample shows. -/
theorem C1_boundary_inside_amended (e : Env) (dt : ℚ) (b : Body)
    (hobs : ∀ o ∈ e.obstacles, ¬ participates e (frameRect e dt b) o)
    (hw : e.charWidth ≤ e.innerWidth) (hh : e.charHeight ≤ e.innerHeight) :
    0 ≤ (stepWithDt e dt b).body.x ∧
    (stepWithDt e dt b).body.x ≤ e.innerWidth - e.charWidth ∧
    0 ≤ (stepWithDt e dt b).body.y ∧
    (stepWithDt e dt b).body.y ≤ e.innerHeight - e.charHeight := by
  obtain ⟨mx, my⟩ := stepWithDt_noCollide e dt b hobs
  rw [mx, my]
  exact applyBoundary_inside e (integrate dt b) hw hh

/-- C1 (witness): the amended boundary invariant at a concrete frame whose
scene contains an obstacle that does not overlap the body. -/
theorem C1_boundary_inside_witness :
    0 ≤ (stepWithDt {envFree with obstacles := [farObstacle]} (1/100) bodyC2).body.x ∧
    (stepWithDt {envFree with obstacles := [farObstacle]} (1/100) bodyC2).body.x
        ≤ ({envFree with obstacles := [farObstacle]} : Env).innerWidth
          - ({envFree with obstacles := [farObstacle]} : Env).charWidth ∧
    0 ≤ (stepWithDt {envFree with obstacles := [farObstacle]} (1/100) bodyC2).body.y ∧
    (stepWithDt {envFree with obstacles := [farObstacle]} (1/100) bodyC2).body.y
        ≤ ({envFree with obstacles := [farObstacle]} : Env).innerHeight
          - ({envFree with obstacles := [farObstacle]} : Env).charHeight :=
  C1_boundary_inside_amended {envFree with obstacles := [farObstacle]} (1/100) bodyC2
    (by
      intro o ho
      simp only [envFree, List.mem_singleton] at ho
      subst ho
      norm_num [participates, frameRect, charRectOf, applyBoundary, integrate,
                isColliding, envFree, farObstacle, bodyC2, gravity, bounceFactor])
    (by norm_num [envFree]) (by norm_num [envFree])

/-- C2 (counterexample): a step whose elapsed time is negative is not a
no-op. With `time = 0` and `lastTime = 1` (elapsed −1 s), the guardless
`dt = min((time − lastTime)/1000, 0.1)` is −1/1000, gravity is still
applied, and the body's vertical velocity changes from 100 to 98. -/
theorem C2_noop_counterexample :
    (physicsStep envFree 0 1 bodyC2).body.vy ≠ bodyC2.vy := by
  norm_num [physicsStep, dtUsed, stepWithDt, integrate, applyBoundary, charRectOf,
            finalizeButtons, gravity, bounceFactor, continuesAnimation,
            envFree, bodyC2, min_def]

/-- C2 (amended): a step with non-positive elapsed time is not guarded:
the code computes `dt = min(elapsed/1000, 0.1)` — which never caps a
non-positive elapsed time — and integrates with it, so gravity and the
position update are applied with the non-positive `dt` (shown here away
from boundaries and obstacles). -/
theorem C2_negative_dt_integrates (e : Env) (t l : ℚ) (b : Body)
    (hobs : e.obstacles = [])
    (hdrag : b.dragging = false)
    (ht : t ≤ l)
    (hx0 : 0 ≤ b.x + b.vx * ((t - l) / 1000))
    (hx1 : b.x + b.vx * ((t - l) / 1000) + e.charWidth ≤ e.innerWidth)
    (hy0 : 0 ≤ b.y + (b.vy + gravity * ((t - l) / 1000)) * ((t - l) / 1000))
    (hy1 : b.y + (b.vy + gravity * ((t - l) / 1000)) * ((t - l) / 1000) + e.charHeight
             ≤ e.innerHeight) :
    (physicsStep e t l b).body.vy = b.vy + gravity * ((t - l) / 1000) ∧
    (physicsStep e t l b).body.y
        = b.y + (b.vy + gravity * ((t - l) / 1000)) * ((t - l) / 1000) := by
  have hdt : dtUsed t l = (t - l) / 1000 := by
    unfold dtUsed
    apply min_eq_left
    have h1 : (t - l) / 1000 ≤ 0 := by linarith
    linarith
  unfold physicsStep
  rw [hdt]
  have hfree := stepWithDt_free e ((t - l) / 1000) b hobs hx0 hx1
      (by simpa [hdrag] using hy0) (by simpa [hdrag] using hy1)
  refine ⟨?_, ?_⟩
  · simpa [hdrag] using hfree.2.2.2
  · simpa [hdrag] using hfree.2.1

/-- C2 (witness): the un-guarded negative-`dt` integration at the concrete
frame of the counterexample. -/
theorem C2_negative_dt_integrates_witness :
    (physicsStep envFree 0 1 bodyC2).body.vy
        = bodyC2.vy + gravity * ((0 - 1) / 1000) ∧
    (physicsStep envFree 0 1 bodyC2).body.y
        = bodyC2.y + (bodyC2.vy + gravity * ((0 - 1) / 1000)) * ((0 - 1) / 1000) :=
  C2_negative_dt_integrates envFree 0 1 bodyC2 rfl rfl (by norm_num)
    (by norm_num [envFree, bodyC2]) (by norm_num [envFree, bodyC2])
    (by norm_num [envFree, bodyC2, gravity]) (by norm_num [envFree, bodyC2, gravity])

/-- C3 (counterexample): with no obstacles but a bottom-boundary crossing,
the velocity after the step is not `vy + GRAVITY·dt`: from `vy = 100` and
`dt = 0.1` the integrated velocity 300 is flipped and damped by the bottom
clamp to −210. -/
theorem C3_gravity_counterexample :
    (stepWithDt envC3 (1/10) bodyC3).body.vy ≠ bodyC3.vy + gravity * (1/10) := by
  norm_num [stepWithDt, integrate, applyBoundary, charRectOf, finalizeButtons,
            gravity, bounceFactor, continuesAnimation, envC3, bodyC3, min_def,
            abs_of_nonneg, abs_of_nonpos]

/-- C3 (amended): for `dt > 0`, `dragging = false`, no obstacles, and an
integrated position that stays inside the viewport (so no boundary clamp
fires), `velocity.y` after one step is exactly
`velocity.y_before + GRAVITY·dt` with `GRAVITY = 2000`. -/
theorem C3_gravity_exact (e : Env) (dt : ℚ) (b : Body)
    (hdt : 0 < dt) (hdrag : b.dragging = false) (hobs : e.obstacles = [])
    (hx0 : 0 ≤ b.x + b.vx * dt)
    (hx1 : b.x + b.vx * dt + e.charWidth ≤ e.innerWidth)
    (hy0 : 0 ≤ b.y + (b.vy + gravity * dt) * dt)
    (hy1 : b.y + (b.vy + gravity * dt) * dt + e.charHeight ≤ e.innerHeight) :
    (stepWithDt e dt b).body.vy = b.vy + gravity * dt := by
  have hfree := stepWithDt_free e dt b hobs hx0 hx1
      (by simpa [hdrag] using hy0) (by simpa [hdrag] using hy1)
  simpa [hdrag] using hfree.2.2.2

/-- C3 (witness): the exact gravity increment at a concrete mid-air frame. -/
theorem C3_gravity_exact_witness :
    (stepWithDt envFree (1/100) bodyC3w).body.vy = bodyC3w.vy + gravity * (1/100) :=
  C3_gravity_exact envFree (1/100) bodyC3w (by norm_num) rfl rfl
    (by norm_num [envFree, bodyC3w]) (by norm_num [envFree, bodyC3w])
    (by norm_num [envFree, bodyC3w, gravity]) (by norm_num [envFree, bodyC3w, gravity])

/-- C4 (confirmed): the resolution axis chosen by the code's
`if / else if` chain is exactly the axis with the smallest of the four
overlap depths, ties broken by the fixed priority top, bottom, left,
right. -/
theorem C4_min_axis_priority (oL oR oT oB : ℚ) :
    resolutionAxis oL oR oT oB = some (specMinAxis oL oR oT oB) := by
  have hL := min4_le_left oL oR oT oB
  have hR := min4_le_right oL oR oT oB
  have hT := min4_le_top oL oR oT oB
  have hB := min4_le_bottom oL oR oT oB
  by_cases h1 : oT ≤ oL ∧ oT ≤ oR ∧ oT ≤ oB
  · have hm : min (min (min oL oR) oT) oB = oT :=
      le_antisymm hT (le_min (le_min (le_min h1.1 h1.2.1) le_rfl) h1.2.2)
    simp only [resolutionAxis, specMinAxis]
    rw [if_pos hm, if_pos h1]
  · by_cases h2 : oB ≤ oL ∧ oB ≤ oR ∧ oB ≤ oT
    · have hm : min (min (min oL oR) oT) oB = oB :=
        le_antisymm hB (le_min (le_min (le_min h2.1 h2.2.1) h2.2.2) le_rfl)
      have hne : ¬ min (min (min oL oR) oT) oB = oT := by
        intro he
        exact h1 ⟨he ▸ hL, he ▸ hR, he ▸ hB⟩
      simp only [resolutionAxis, specMinAxis]
      rw [if_neg hne, if_pos hm, if_neg h1, if_pos h2]
    · by_cases h3 : oL ≤ oR ∧ oL ≤ oT ∧ oL ≤ oB
      · have hm : min (min (min oL oR) oT) oB = oL :=
          le_antisymm hL (le_min (le_min (le_min le_rfl h3.1) h3.2.1) h3.2.2)
        have hneT : ¬ min (min (min oL oR) oT) oB = oT := by
          intro he; exact h1 ⟨he ▸ hL, he ▸ hR, he ▸ hB⟩
        have hneB : ¬ min (min (min oL oR) oT) oB = oB := by
          intro he; exact h2 ⟨he ▸ hL, he ▸ hR, he ▸ hT⟩
        simp only [resolutionAxis, specMinAxis]
        rw [if_neg hneT, if_neg hneB, if_pos hm, if_neg h1, if_neg h2, if_pos h3]
      · have hneT : ¬ min (min (min oL oR) oT) oB = oT := by
          intro he; exact h1 ⟨he ▸ hL, he ▸ hR, he ▸ hB⟩
        have hneB : ¬ min (min (min oL oR) oT) oB = oB := by
          intro he; exact h2 ⟨he ▸ hL, he ▸ hR, he ▸ hT⟩
        have hneL : ¬ min (min (min oL oR) oT) oB = oL := by
          intro he; exact h3 ⟨he ▸ hR, he ▸ hT, he ▸ hB⟩
        have hm : min (min (min oL oR) oT) oB = oR := by
          rcases min4_choice oL oR oT oB with h | h | h | h
          · exact absurd h hneL
          · exact h
          · exact absurd h hneT
          · exact absurd h hneB
        simp only [resolutionAxis, specMinAxis]
        rw [if_neg hneT, if_neg hneB, if_neg hneL, if_pos hm,
            if_neg h1, if_neg h2, if_neg h3]

/-- C5 (confirmed): a body resting on top of a wide ground obstacle (pinned
at `y = obstacle.top − height` with `vy = 0`, hence `|vy| < 150` at the
landing test after gravity, by `hthr`) has each physics step multiply
`velocity.x` by the ground friction 0.95 and snap it to exactly 0 once the
product's magnitude drops below the ground epsilon 5; hence there is a
bounded frame count `N` after which `velocity.x` is exactly 0, while
`position.y` stays pinned to `obstacle.top − height` and `velocity.y` stays
0 throughout.  The geometry hypotheses say the obstacle spans the viewport
horizontally, the resting surface is inside the viewport, the per-step
gravity dip `gravity·dt²` is small against the obstacle, and the total
horizontal travel margin `20·|vx0|·dt` keeps the body away from the side
walls. -/
theorem C5_soft_landing_convergence (W H w h gl gr T gb dt x0 vx0 : ℚ)
    (hw : 0 < w) (hh : h ≤ T) (hdt : 0 < dt) (hthr : gravity * dt < 150)
    (hDw : gravity * dt * dt ≤ w)
    (hDb : 2 * (gravity * dt * dt) ≤ gb - T + h)
    (hTH : T + gravity * dt * dt ≤ H)
    (hgl : gl ≤ 0) (hgr : W ≤ gr)
    (hmx0 : 20 * |vx0| * dt ≤ x0)
    (hmx1 : x0 + w + 20 * |vx0| * dt ≤ W) :
    ∃ N : ℕ, ∀ n : ℕ,
      ((restF W H w h gl gr T gb dt)^[n+1] (restB0 x0 vx0 T h)).vx
        = (if |((restF W H w h gl gr T gb dt)^[n] (restB0 x0 vx0 T h)).vx
                * PHYSICS_PARAMS.ground.friction| < 5 then 0
           else ((restF W H w h gl gr T gb dt)^[n] (restB0 x0 vx0 T h)).vx
                  * PHYSICS_PARAMS.ground.friction) ∧
      ((restF W H w h gl gr T gb dt)^[n] (restB0 x0 vx0 T h)).y = T - h ∧
      ((restF W H w h gl gr T gb dt)^[n] (restB0 x0 vx0 T h)).vy = 0 ∧
      (N ≤ n → ((restF W H w h gl gr T gb dt)^[n] (restB0 x0 vx0 T h)).vx = 0) := by
  have hq0 : (0:ℚ) ≤ PHYSICS_PARAMS.ground.friction := by norm_num [PHYSICS_PARAMS]
  have hq1 : PHYSICS_PARAMS.ground.friction ≤ 1 := by norm_num [PHYSICS_PARAMS]
  have hvpos : (0:ℚ) < |vx0| + 1 := by
    have := abs_nonneg vx0
    linarith
  obtain ⟨N0, hN0⟩ := exists_pow_lt_of_lt_one
      (show (0:ℚ) < 5 / (|vx0| + 1) by positivity)
      (show PHYSICS_PARAMS.ground.friction < 1 by norm_num [PHYSICS_PARAMS])
  refine ⟨N0 + 1, fun n => ?_⟩
  obtain ⟨iy, ivy, idrag, ilast, ivx, ix⟩ := restingIter_props W H w h gl gr T gb dt x0 vx0
    hw hh hdt hthr hDw hDb hTH hgl hgr hmx0 hmx1 n
  obtain ⟨hstep, _⟩ := restingAdvance W H w h gl gr T gb dt x0 vx0 n
    ((restF W H w h gl gr T gb dt)^[n] (restB0 x0 vx0 T h))
    hw hh hdt hthr hDw hDb hTH hgl hgr hmx0 hmx1 iy ivy idrag ilast ivx ix
  have hiter : (restF W H w h gl gr T gb dt)^[n+1] (restB0 x0 vx0 T h) =
      ⟨((restF W H w h gl gr T gb dt)^[n] (restB0 x0 vx0 T h)).x
         + ((restF W H w h gl gr T gb dt)^[n] (restB0 x0 vx0 T h)).vx * dt, T - h,
       if |((restF W H w h gl gr T gb dt)^[n] (restB0 x0 vx0 T h)).vx
            * PHYSICS_PARAMS.ground.friction| < 5 then 0
       else ((restF W H w h gl gr T gb dt)^[n] (restB0 x0 vx0 T h)).vx
              * PHYSICS_PARAMS.ground.friction, 0, false, none⟩ := by
    rw [Function.iterate_succ_apply']
    exact hstep
  refine ⟨by rw [hiter], iy, ivy, fun hn => ?_⟩
  obtain ⟨m, rfl⟩ : ∃ m, n = m + 1 := ⟨n - 1, by omega⟩
  obtain ⟨iy', ivy', idrag', ilast', ivx', ix'⟩ := restingIter_props W H w h gl gr T gb dt x0 vx0
    hw hh hdt hthr hDw hDb hTH hgl hgr hmx0 hmx1 m
  obtain ⟨hstep', _⟩ := restingAdvance W H w h gl gr T gb dt x0 vx0 m
    ((restF W H w h gl gr T gb dt)^[m] (restB0 x0 vx0 T h))
    hw hh hdt hthr hDw hDb hTH hgl hgr hmx0 hmx1 iy' ivy' idrag' ilast' ivx' ix'
  have hiter' : (restF W H w h gl gr T gb dt)^[m+1] (restB0 x0 vx0 T h) =
      ⟨((restF W H w h gl gr T gb dt)^[m] (restB0 x0 vx0 T h)).x
         + ((restF W H w h gl gr T gb dt)^[m] (restB0 x0 vx0 T h)).vx * dt, T - h,
       if |((restF W H w h gl gr T gb dt)^[m] (restB0 x0 vx0 T h)).vx
            * PHYSICS_PARAMS.ground.friction| < 5 then 0
       else ((restF W H w h gl gr T gb dt)^[m] (restB0 x0 vx0 T h)).vx
              * PHYSICS_PARAMS.ground.friction, 0, false, none⟩ := by
    rw [Function.iterate_succ_apply']
    exact hstep'
  have hcond : |((restF W H w h gl gr T gb dt)^[m] (restB0 x0 vx0 T h)).vx
      * PHYSICS_PARAMS.ground.friction| < 5 := by
    have h1 : |((restF W H w h gl gr T gb dt)^[m] (restB0 x0 vx0 T h)).vx
        * PHYSICS_PARAMS.ground.friction|
        ≤ |vx0| * PHYSICS_PARAMS.ground.friction ^ (m+1) := by
      calc |((restF W H w h gl gr T gb dt)^[m] (restB0 x0 vx0 T h)).vx
              * PHYSICS_PARAMS.ground.friction|
          = |((restF W H w h gl gr T gb dt)^[m] (restB0 x0 vx0 T h)).vx|
              * PHYSICS_PARAMS.ground.friction := by rw [abs_mul, abs_of_nonneg hq0]
        _ ≤ |vx0| * PHYSICS_PARAMS.ground.friction ^ m
              * PHYSICS_PARAMS.ground.friction := mul_le_mul_of_nonneg_right ivx' hq0
        _ = |vx0| * PHYSICS_PARAMS.ground.friction ^ (m+1) := by rw [pow_succ]; ring
    have h2 : |vx0| * PHYSICS_PARAMS.ground.friction ^ (m+1)
        ≤ (|vx0| + 1) * PHYSICS_PARAMS.ground.friction ^ N0 := by
      apply mul_le_mul (by linarith)
        (pow_le_pow_of_le_one hq0 hq1 (by omega)) (pow_nonneg hq0 _) (by linarith)
    have h3 : (|vx0| + 1) * PHYSICS_PARAMS.ground.friction ^ N0 < 5 := by
      have h4 := mul_lt_mul_of_pos_left hN0 hvpos
      have h5 : (|vx0| + 1) * (5 / (|vx0| + 1)) = 5 := by field_simp
      linarith
    linarith
  rw [hiter']
  show (if |((restF W H w h gl gr T gb dt)^[m] (restB0 x0 vx0 T h)).vx
            * PHYSICS_PARAMS.ground.friction| < 5 then (0:ℚ)
        else ((restF W H w h gl gr T gb dt)^[m] (restB0 x0 vx0 T h)).vx
              * PHYSICS_PARAMS.ground.friction) = 0
  rw [if_pos hcond]

/-- C5 (witness): the convergence statement at a concrete resting scene
(1000×1000 viewport, 10×10 body resting at height 500 on a full-width
ground slab, `dt = 0.01`, initial `vx = 100`). -/
theorem C5_soft_landing_witness :
    ∃ N : ℕ, ∀ n : ℕ,
      ((restF 1000 1000 10 10 (-10) 1010 500 1000 (1/100))^[n+1]
          (restB0 500 100 500 10)).vx
        = (if |((restF 1000 1000 10 10 (-10) 1010 500 1000 (1/100))^[n]
                  (restB0 500 100 500 10)).vx * PHYSICS_PARAMS.ground.friction| < 5
           then 0
           else ((restF 1000 1000 10 10 (-10) 1010 500 1000 (1/100))^[n]
                  (restB0 500 100 500 10)).vx * PHYSICS_PARAMS.ground.friction) ∧
      ((restF 1000 1000 10 10 (-10) 1010 500 1000 (1/100))^[n]
          (restB0 500 100 500 10)).y = 500 - 10 ∧
      ((restF 1000 1000 10 10 (-10) 1010 500 1000 (1/100))^[n]
          (restB0 500 100 500 10)).vy = 0 ∧
      (N ≤ n → ((restF 1000 1000 10 10 (-10) 1010 500 1000 (1/100))^[n]
          (restB0 500 100 500 10)).vx = 0) :=
  C5_soft_landing_convergence 1000 1000 10 10 (-10) 1010 500 1000 (1/100) 500 100
    (by norm_num) (by norm_num) (by norm_num) (by norm_num [gravity])
    (by norm_num [gravity]) (by norm_num [gravity]) (by norm_num [gravity])
    (by norm_num) (by norm_num) (by norm_num) (by norm_num)

/-- C6 (confirmed): for EVERY frame sequence — arbitrary environments,
time deltas, geometry and initial body — in which the body's (evolving)
box overlaps a single tagged (menu-button) obstacle on each of `≥ 1`
overlap frames and then overlaps nothing on each of `≥ 1` exit frames,
starting with no tracked button, the whole run emits exactly one
`buttonEnter tag` and exactly one `buttonExit tag`: no duplicates during
the continuous overlap, and the single exit on leaving. -/
theorem C6_tag_enter_exit_once (tag : String) (over out : List (Env × ℚ)) (b0 : Body)
    (hk : over ≠ []) (hm : out ≠ [])
    (hlast : b0.lastCollidedButton = none)
    (hover : allTagOverlap tag over b0)
    (hout : allNoOverlap out (runFrames over b0).1) :
    countNotif (Notif.buttonEnter tag) (runFrames (over ++ out) b0).2 = 1 ∧
    countNotif (Notif.buttonExit tag) (runFrames (over ++ out) b0).2 = 1 := by
  obtain ⟨p, rest, rfl⟩ : ∃ p rest, over = p :: rest := by
    cases over with
    | nil => exact absurd rfl hk
    | cons p rest => exact ⟨p, rest, rfl⟩
  obtain ⟨q, rest2, rfl⟩ : ∃ q rest2, out = q :: rest2 := by
    cases out with
    | nil => exact absurd rfl hm
    | cons q rest2 => exact ⟨q, rest2, rfl⟩
  unfold allTagOverlap at hover
  obtain ⟨hfA, hrestA⟩ := hover
  obtain ⟨hlast1, hcE1, _, hcX1⟩ := stepFrame_tagged tag p.1 p.2 b0 hfA (by rw [hlast]; simp)
  obtain ⟨hlastA, hcountsA⟩ :=
    runFrames_stay tag rest (stepWithDt p.1 p.2 b0).body hrestA hlast1
  have hB1 : (runFrames (p :: rest) b0).1
      = (runFrames rest (stepWithDt p.1 p.2 b0).body).1 := by
    simp [runFrames]
  unfold allNoOverlap at hout
  obtain ⟨hfB, hrest2⟩ := hout
  obtain ⟨hlast2, hcX2, hcE2, _⟩ :=
    stepFrame_none_exit q.1 q.2 ((runFrames (p :: rest) b0).1) tag hfB
      (by rw [hB1]; exact hlastA)
  obtain ⟨_, hcounts2⟩ :=
    runFrames_idle rest2 (stepWithDt q.1 q.2 ((runFrames (p :: rest) b0).1)).body
      hrest2 hlast2
  have hsplit : (runFrames ((p :: rest) ++ (q :: rest2)) b0).2
      = (runFrames (p :: rest) b0).2
        ++ (runFrames (q :: rest2) ((runFrames (p :: rest) b0).1)).2 := by
    rw [runFrames_append]
  have hE1 : (runFrames (p :: rest) b0).2
      = (stepWithDt p.1 p.2 b0).events
        ++ (runFrames rest (stepWithDt p.1 p.2 b0).body).2 := by
    simp [runFrames]
  have hE2 : (runFrames (q :: rest2) ((runFrames (p :: rest) b0).1)).2
      = (stepWithDt q.1 q.2 ((runFrames (p :: rest) b0).1)).events
        ++ (runFrames rest2
            (stepWithDt q.1 q.2 ((runFrames (p :: rest) b0).1)).body).2 := by
    simp [runFrames]
  rw [hsplit, hE1, hE2]
  constructor
  · rw [countNotif_append, countNotif_append, countNotif_append,
        hcE1, (hcountsA tag).1, hcE2 tag, (hcounts2 tag).1]
  · rw [countNotif_append, countNotif_append, countNotif_append,
        hcX1 tag, (hcountsA tag).2, hcX2, (hcounts2 tag).2]

/-- C6 (witness): the single enter/exit pair for a concrete tag, with one
overlap frame and one exit frame. -/
theorem C6_tag_enter_exit_once_witness :
    countNotif (Notif.buttonEnter "play")
      (runFrames ([(envOver "play", 1/100)] ++ [(envAway "play", 1/100)]) bodyStill).2 = 1 ∧
    countNotif (Notif.buttonExit "play")
      (runFrames ([(envOver "play", 1/100)] ++ [(envAway "play", 1/100)]) bodyStill).2 = 1 :=
  C6_tag_enter_exit_once "play" [(envOver "play", 1/100)] [(envAway "play", 1/100)] bodyStill
    (by simp) (by simp) rfl
    (by
      refine ⟨⟨[], buttonObstacle "play", [], rfl, rfl, ?_, by simp, by simp⟩, trivial⟩
      norm_num [participates, frameRect, charRectOf, applyBoundary, integrate,
                isColliding, envOver, buttonObstacle, bodyStill, gravity, bounceFactor])
    (by
      rw [show (runFrames [(envOver "play", 1/100)] bodyStill).1
            = ⟨100, 90, 0, 0, true, some "play"⟩ by
          simp [runFrames, overStep_enter]]
      refine ⟨?_, trivial⟩
      intro o ho
      simp only [envAway, List.mem_singleton] at ho
      subst ho
      norm_num [participates, frameRect, charRectOf, applyBoundary, integrate,
                isColliding, envAway, awayObstacle, gravity, bounceFactor])

/-- C7 (counterexample): when the body overlaps two tagged obstacles
simultaneously for two frames, the run emits `buttonEnter` for BOTH tags on
EVERY frame — events for the earlier tag are emitted again after the tracker
has moved on, contradicting "only the most recent transition is reported:
the tracker switches to the newer tag without emitting events for the
earlier one". -/
theorem C7_simultaneous_counterexample :
    (runSteps (1/100) [envBoth "a" "b", envBoth "a" "b"] bodyStill).2
      = [Notif.buttonEnter "a", Notif.buttonEnter "b",
         Notif.buttonEnter "a", Notif.buttonEnter "b"] := by
  have hab : ("a" : String) ≠ "b" := by simp
  have hba : ("b" : String) ≠ "a" := by simp
  simp [runSteps, bothStep_first "a" "b" hba, bothStep_again "a" "b" hab hba]

/-- C7 (amended): exactly one tagged obstacle is tracked at a time (a
single `lastCollidedButton` slot).  For EVERY geometry, body state and time
delta: (1) on a direct move — a frame overlapping only an obstacle tagged
`b` while `a ≠ b` is tracked — exactly one `buttonEnter b` is emitted, no
enter for `a` and no exit for either tag, and the tracker ends on `b`;
(2) on a frame overlapping two tagged obstacles `a` then `b` with `a` not
currently tracked, `buttonEnter` is emitted for BOTH tags (and no exits),
so under sustained simultaneous overlap the slot flip-flops and the enters
re-fire every frame (the counterexample); only the direct-move half of the
original claim holds. -/
theorem C7_single_slot_switch :
    (∀ (a tagB : String) (e : Env) (dt : ℚ) (b : Body),
        a ≠ tagB → b.lastCollidedButton = some a →
        tagOverlapFrame tagB (e, dt) b →
        ((stepWithDt e dt b).body.lastCollidedButton = some tagB ∧
         countNotif (Notif.buttonEnter tagB) (stepWithDt e dt b).events = 1 ∧
         countNotif (Notif.buttonEnter a) (stepWithDt e dt b).events = 0 ∧
         countNotif (Notif.buttonExit a) (stepWithDt e dt b).events = 0 ∧
         countNotif (Notif.buttonExit tagB) (stepWithDt e dt b).events = 0))
    ∧ (∀ (a tagB : String) (e : Env) (dt : ℚ) (b : Body),
        a ≠ tagB → b.lastCollidedButton ≠ some a →
        twoTagOverlapFrame a tagB (e, dt) b →
        ((stepWithDt e dt b).body.lastCollidedButton = some tagB ∧
         countNotif (Notif.buttonEnter a) (stepWithDt e dt b).events = 1 ∧
         countNotif (Notif.buttonEnter tagB) (stepWithDt e dt b).events = 1 ∧
         (∀ t : String,
            countNotif (Notif.buttonExit t) (stepWithDt e dt b).events = 0))) := by
  constructor
  · intro a tagB e dt b hab hl hov
    obtain ⟨hlast', hcE, hcEo, hcX⟩ :=
      stepFrame_tagged tagB e dt b hov (by rw [hl]; simp [hab])
    exact ⟨hlast', hcE, hcEo a hab, hcX a, hcX tagB⟩
  · intro a tagB e dt b hab hne hov
    exact stepFrame_both a tagB e dt b hab hov hne

/-- C7 (witness): both halves at concrete scenes — a direct move from tag
"a" to tag "b", and a simultaneous-overlap frame over both tags. -/
theorem C7_single_slot_switch_witness :
    ((stepWithDt (envSwitch "b") (1/100) ⟨100, 90, 0, 0, true, some "a"⟩).body.lastCollidedButton
        = some "b" ∧
     countNotif (Notif.buttonEnter "b")
        (stepWithDt (envSwitch "b") (1/100) ⟨100, 90, 0, 0, true, some "a"⟩).events = 1 ∧
     countNotif (Notif.buttonEnter "a")
        (stepWithDt (envSwitch "b") (1/100) ⟨100, 90, 0, 0, true, some "a"⟩).events = 0 ∧
     countNotif (Notif.buttonExit "a")
        (stepWithDt (envSwitch "b") (1/100) ⟨100, 90, 0, 0, true, some "a"⟩).events = 0 ∧
     countNotif (Notif.buttonExit "b")
        (stepWithDt (envSwitch "b") (1/100) ⟨100, 90, 0, 0, true, some "a"⟩).events = 0) ∧
    ((stepWithDt (envBoth "a" "b") (1/100) bodyStill).body.lastCollidedButton = some "b" ∧
     countNotif (Notif.buttonEnter "a")
        (stepWithDt (envBoth "a" "b") (1/100) bodyStill).events = 1 ∧
     countNotif (Notif.buttonEnter "b")
        (stepWithDt (envBoth "a" "b") (1/100) bodyStill).events = 1 ∧
     (∀ t : String,
        countNotif (Notif.buttonExit t)
          (stepWithDt (envBoth "a" "b") (1/100) bodyStill).events = 0)) :=
  ⟨C7_single_slot_switch.1 "a" "b" (envSwitch "b") (1/100) ⟨100, 90, 0, 0, true, some "a"⟩
     (by simp) rfl
     (by
       refine ⟨[], switchObstacle "b", [], rfl, rfl, ?_, by simp, by simp⟩
       norm_num [participates, frameRect, charRectOf, applyBoundary, integrate,
                 isColliding, envSwitch, switchObstacle, gravity, bounceFactor]),
   C7_single_slot_switch.2 "a" "b" (envBoth "a" "b") (1/100) bodyStill
     (by simp) (by simp [bodyStill])
     (by
       refine ⟨[], buttonObstacle "a", [], buttonObstacle "b", [], rfl, rfl, rfl,
               ?_, ?_, by simp, by simp, by simp⟩ <;>
         norm_num [participates, frameRect, charRectOf, applyBoundary, integrate,
                   isColliding, envBoth, buttonObstacle, bodyStill, gravity, bounceFactor])⟩

/-- C8 (counterexample): a zero-sized obstacle rectangle is NOT treated as
never colliding.  The all-zero rectangle of a hidden element touches the
body's box at the origin (touching counts as overlap), resolves along the
zero-depth bottom overlap, flips and damps `velocity.y` from −200 to 140,
and raises the landing notification — whereas the same step with no
obstacle leaves `velocity.y = −200` and emits nothing. -/
theorem C8_zero_sized_counterexample :
    (stepWithDt envC8 (1/100) bodyC8).body.vy = 140 ∧
    (stepWithDt envC8 (1/100) bodyC8).events = [Notif.landed] ∧
    (stepWithDt envFree (1/100) bodyC8).body.vy = -200 ∧
    (stepWithDt envFree (1/100) bodyC8).events = [] := by
  refine ⟨?_, ?_, ?_, ?_⟩ <;>
    norm_num [stepWithDt, integrate, applyBoundary, charRectOf, processObstacle,
              isColliding, resolveCollision, resolutionAxis, finalizeButtons,
              PHYSICS_PARAMS, gravity, bounceFactor, continuesAnimation,
              envC8, envFree, zeroObstacle, bodyC8, min_def, abs_of_nonneg, abs_of_nonpos]

/-- C8 (amended): the collision loop skips an obstacle only when its
rectangle lies entirely outside the viewport (the visibility
short-circuit); such an obstacle never changes the body's state and never
triggers a notification.  A zero-sized rectangle is not skipped and, since
touching counts as colliding, can still affect the body (see the
counterexample). -/
theorem C8_offscreen_skip (e : Env) (dt : ℚ) (b : Body) (o : Obstacle)
    (h : o.rect.right < 0 ∨ o.rect.left > e.innerWidth ∨
         o.rect.bottom < 0 ∨ o.rect.top > e.innerHeight) :
    stepWithDt {e with obstacles := [o]} dt b = stepWithDt {e with obstacles := []} dt b := by
  have hskip : ∀ (cR : Rect) (s : LoopState),
      processObstacle {e with obstacles := [o]} cR s o = s := by
    intro cR s
    unfold processObstacle
    rw [if_pos]
    show o.rect.right < 0 ∨ o.rect.left > e.innerWidth ∨
         o.rect.bottom < 0 ∨ o.rect.top > e.innerHeight
    exact h
  simp only [stepWithDt, applyBoundary, charRectOf, List.foldl_cons, List.foldl_nil, hskip]

/-- C8 (witness): an obstacle fully to the left of the viewport has no
effect on a concrete step. -/
theorem C8_offscreen_skip_witness :
    stepWithDt {envFree with obstacles := [offObstacle]} (1/100) bodyC2
      = stepWithDt {envFree with obstacles := []} (1/100) bodyC2 :=
  C8_offscreen_skip envFree (1/100) bodyC2 offObstacle
    (Or.inl (by norm_num [offObstacle]))

/-- C9 (confirmed): after a physics step, another frame is scheduled iff
`dragging` is true or a velocity component has magnitude above the 1 px/s
motion threshold; in particular the loop stops once `dragging` is false and
both components are below 1 px/s in magnitude; and from a stopped state the
only inputs that can restart the loop are drag end, the click impulse, and
the keyboard jump. -/
theorem C9_scheduling_iff :
    (∀ (s : SchedState) (e : Env) (dt : ℚ), s.running = true →
        ((applyEvent s (.frame e dt)).running = true ↔
          ((applyEvent s (.frame e dt)).body.dragging = true ∨
           1 < |(applyEvent s (.frame e dt)).body.vx| ∨
           1 < |(applyEvent s (.frame e dt)).body.vy|)))
    ∧ (∀ (s : SchedState) (e : Env) (dt : ℚ), s.running = true →
        (applyEvent s (.frame e dt)).body.dragging = false →
        |(applyEvent s (.frame e dt)).body.vx| < 1 →
        |(applyEvent s (.frame e dt)).body.vy| < 1 →
        (applyEvent s (.frame e dt)).running = false)
    ∧ (∀ (s : SchedState) (ev : InputEvent), s.running = false →
        (applyEvent s ev).running = true →
        (ev = .dragEnd ∨ (∃ r, ev = .click r) ∨ (∃ r, ev = .keyJump r))) := by
  refine ⟨?_, ?_, ?_⟩
  · intro s e dt hrun
    simp only [applyEvent, hrun, if_true, ite_true, stepWithDt, continuesAnimation]
    simp [Bool.or_eq_true, decide_eq_true_eq]
    tauto
  · intro s e dt hrun hd hvx hvy
    simp only [applyEvent, hrun, if_true, ite_true, stepWithDt, continuesAnimation] at hd hvx hvy ⊢
    simp_all
    constructor <;> linarith
  · intro s ev hstop hrun
    cases ev with
    | frame e dt => rw [applyEvent, if_neg (by simp [hstop])] at hrun; rw [hstop] at hrun; exact absurd hrun (by simp)
    | dragStart => simp [applyEvent] at hrun
    | dragMove nx ny =>
        rw [applyEvent] at hrun
        split at hrun
        · simp at hrun; rw [hstop] at hrun; exact absurd hrun (by simp)
        · rw [hstop] at hrun; exact absurd hrun (by simp)
    | dragEnd => exact Or.inl rfl
    | click r => exact Or.inr (Or.inl ⟨r, rfl⟩)
    | keyJump r => exact Or.inr (Or.inr ⟨r, rfl⟩)
    | keyArrowLeft => simp [applyEvent, hstop] at hrun
    | keyArrowRight w => simp [applyEvent, hstop] at hrun

/-- C9 (witness): the three scheduling facts at concrete states — a frame
with leftover downward speed keeps the loop running, a frame ending at rest
stops it, and drag end restarts a stopped loop. -/
theorem C9_scheduling_iff_witness :
    ((applyEvent ⟨⟨500, 500, 0, 20, false, none⟩, true⟩
        (.frame envFree (1/100))).running = true ↔
      ((applyEvent ⟨⟨500, 500, 0, 20, false, none⟩, true⟩
          (.frame envFree (1/100))).body.dragging = true ∨
       1 < |(applyEvent ⟨⟨500, 500, 0, 20, false, none⟩, true⟩
          (.frame envFree (1/100))).body.vx| ∨
       1 < |(applyEvent ⟨⟨500, 500, 0, 20, false, none⟩, true⟩
          (.frame envFree (1/100))).body.vy|)) ∧
    (applyEvent ⟨⟨500, 500, 0, 0, false, none⟩, true⟩
        (.frame envFree 0)).running = false ∧
    (InputEvent.dragEnd = InputEvent.dragEnd ∨
      (∃ r, InputEvent.dragEnd = InputEvent.click r) ∨
      (∃ r, InputEvent.dragEnd = InputEvent.keyJump r)) :=
  ⟨C9_scheduling_iff.1 ⟨⟨500, 500, 0, 20, false, none⟩, true⟩ envFree (1/100) rfl,
   C9_scheduling_iff.2.1 ⟨⟨500, 500, 0, 0, false, none⟩, true⟩ envFree 0 rfl
     (by norm_num [applyEvent, stepWithDt, integrate, applyBoundary, charRectOf,
                   finalizeButtons, continuesAnimation, gravity, bounceFactor,
                   envFree, min_def])
     (by norm_num [applyEvent, stepWithDt, integrate, applyBoundary, charRectOf,
                   finalizeButtons, continuesAnimation, gravity, bounceFactor,
                   envFree, min_def])
     (by norm_num [applyEvent, stepWithDt, integrate, applyBoundary, charRectOf,
                   finalizeButtons, continuesAnimation, gravity, bounceFactor,
                   envFree, min_def]),
   C9_scheduling_iff.2.2 ⟨⟨0, 0, 0, 0, true, none⟩, false⟩ InputEvent.dragEnd rfl rfl⟩

/-- C10 (confirmed): the time delta used for integration is the elapsed
wall-clock time (in seconds) capped from above at 0.1 s —
`dt = min(elapsed, 0.1)` — so a single step never advances the simulation by
more than 0.1 s, and `physicsStep` integrates with exactly this capped
delta. -/
theorem C10_dt_cap (time lastTime : ℚ) :
    dtUsed time lastTime ≤ 0.1
    ∧ ((time - lastTime) / 1000 ≤ 0.1 → dtUsed time lastTime = (time - lastTime) / 1000)
    ∧ (0.1 < (time - lastTime) / 1000 → dtUsed time lastTime = 0.1)
    ∧ (∀ (e : Env) (b : Body), physicsStep e time lastTime b
          = stepWithDt e (dtUsed time lastTime) b) := by
  refine ⟨min_le_right _ _, fun h => min_eq_left h, fun h => min_eq_right h.le,
          fun e b => rfl⟩

/-- C10 (witness): the cap at concrete timestamps — a 0.2 s gap is capped to
0.1 s, a 0.05 s gap is used as-is. -/
theorem C10_dt_cap_witness :
    dtUsed 200 0 = 0.1 ∧ dtUsed 50 0 = (50 - 0) / 1000 ∧ dtUsed 200 0 ≤ 0.1 ∧
    physicsStep envFree 200 0 bodyC2 = stepWithDt envFree (dtUsed 200 0) bodyC2 :=
  ⟨(C10_dt_cap 200 0).2.2.1 (by norm_num), (C10_dt_cap 50 0).2.1 (by norm_num),
   (C10_dt_cap 200 0).1, (C10_dt_cap 200 0).2.2.2 envFree bodyC2⟩

end SevenDrops
